import Mathlib

/-!
Verification development for the LibBot conversational bookstore backend.

The definitions below are a shallow embedding of the Python source:
`backend/chatbot/database_tools.py` (record store and purchase/credit
transactions), `backend/chatbot/agents.py` (the rule-based buy-request
parsers), `backend/chatbot/session_manager.py` (per-user sessions with
idle expiry) and `backend/chatbot/stateful_workflow.py` (the dialogue
router).  Strings are modelled as `List Char`; Python's unbounded ints
are `Int` (regex-extracted quantities, which are always non-negative,
are `Nat` at the parser level); the SQL store is a pair of in-memory
lists; storage write faults are injected through an explicit stream of
booleans consumed one entry per write attempt (`execute_non_query`
returning `False`).  Network reads (SELECT) never fail in this model;
all write sites in the source route through `execute_non_query`, which
is the only fallible operation the transactions react to.
-/

namespace LibBot

/-! ## Python-style character and string helpers -/

/-- ASCII lower-casing, as applied by Python's `str.lower()` on the
inputs this system handles. -/
def lowerChar (c : Char) : Char :=
  if 'A' ≤ c ∧ c ≤ 'Z' then Char.ofNat (c.toNat + 32) else c

def lowerStr (s : List Char) : List Char := s.map lowerChar

/-- Python `\d` (ASCII digits on these inputs). -/
def isPyDigit (c : Char) : Bool := '0' ≤ c ∧ c ≤ '9'

/-- Python `\s` / `str.strip()` whitespace class. -/
def isPySpace (c : Char) : Bool :=
  c = ' ' ∨ c = '\t' ∨ c = '\n' ∨ c = '\r' ∨ c = Char.ofNat 11 ∨ c = Char.ofNat 12

/-- Python `\w` (word character) for `\b` word boundaries. -/
def isWordChar (c : Char) : Bool := c.isAlpha ∨ isPyDigit c ∨ c = '_'

/-- Maximal run of characters satisfying `p` at the front: `(run, rest)`. -/
def takeRun (p : Char → Bool) : List Char → List Char × List Char
  | [] => ([], [])
  | c :: rest =>
    if p c then
      let (r, t) := takeRun p rest
      (c :: r, t)
    else ([], c :: rest)

def digitRun (s : List Char) : List Char × List Char := takeRun isPyDigit s
def spaceRun (s : List Char) : List Char × List Char := takeRun isPySpace s

/-- Value of a digit string, as Python `int()` on a `\d+` match. -/
def digitsToNat (ds : List Char) : Nat :=
  ds.foldl (fun acc c => acc * 10 + (c.toNat - '0'.toNat)) 0

/-- Case-insensitive literal prefix test: does `s` start with `w`
(compared lower-cased)?  Returns the rest of `s` after `w` on success. -/
def stripCI : List Char → List Char → Option (List Char)
  | [], s => some s
  | _ :: _, [] => none
  | w :: ws, c :: cs => if lowerChar c = lowerChar w then stripCI ws cs else none

/-- Case-sensitive literal prefix test (`s` starts with `w`). -/
def hasPre : List Char → List Char → Bool
  | [], _ => true
  | _ :: _, [] => false
  | a :: ws, c :: cs => a = c && hasPre ws cs

/-- Does `needle` occur as a contiguous substring of `hay`
(Python `needle in hay`)? -/
def containsSub (needle : List Char) : List Char → Bool
  | [] => needle.isEmpty
  | c :: rest => hasPre needle (c :: rest) || containsSub needle rest

/-- Case-insensitive substring containment, modelling SQL Server
`LIKE '%needle%'` under the default case-insensitive collation. -/
def containsCI (needle hay : List Char) : Bool :=
  containsSub (lowerStr needle) (lowerStr hay)

/-- Python `str.strip()`: trim whitespace from both ends. -/
def pyStripWs (s : List Char) : List Char :=
  ((s.dropWhile isPySpace).reverse.dropWhile isPySpace).reverse

/-- Python `str.strip(chars)`: trim any of `cs` from both ends. -/
def pyStripSet (cs : List Char) (s : List Char) : List Char :=
  ((s.dropWhile (cs.contains ·)).reverse.dropWhile (cs.contains ·)).reverse

/-- Python `str.split(ch)` for a single-character separator. -/
def splitOnChar (ch : Char) : List Char → List (List Char)
  | [] => [[]]
  | c :: rest =>
    let r := splitOnChar ch rest
    if c = ch then [] :: r
    else
      match r with
      | [] => [[c]]
      | p :: ps => (c :: p) :: ps

/-- Python `str.split(sep)` for a multi-character separator, scanning
left to right for non-overlapping occurrences.  Fueled structural
recursion; the fuel is always at least the string length at call sites,
which makes the fuel branch unreachable. -/
def splitOnSubFuel (sep : List Char) : Nat → List Char → List (List Char)
  | 0, s => [s]
  | _ + 1, [] => [[]]
  | fuel + 1, c :: rest =>
    if hasPre sep (c :: rest) then
      [] :: splitOnSubFuel sep fuel ((c :: rest).drop sep.length)
    else
      match splitOnSubFuel sep fuel rest with
      | [] => [[c]]
      | p :: ps => (c :: p) :: ps

def splitOnSub (sep s : List Char) : List (List Char) :=
  splitOnSubFuel sep s.length s

/-- First run of digits anywhere in the string, as `re.search(r'\d+')`
followed by `int(...)`. -/
def firstDigitRun : List Char → Option Nat
  | [] => none
  | c :: rest =>
    if isPyDigit c then
      let (d, _) := digitRun (c :: rest)
      some (digitsToNat d)
    else firstDigitRun rest

/-! ## Record store (`ChatbotDatabase` low-level operations)

The SQL tables `book_names (title, author, Qty)` and
`users (user_id, available_credits)` become two in-memory lists.
`faults` is the injected stream of storage write faults: every call to
`execute_non_query` (the only fallible operation the transaction code
branches on) consumes one entry; `true` means the write fails, an
exhausted stream means all further writes succeed. -/

structure Book where
  title : List Char
  author : List Char
  qty : Int
deriving DecidableEq, Repr

structure Store where
  books : List Book
  credits : List (Nat × Int)
  faults : List Bool
deriving DecidableEq, Repr

/-- Consume the next entry of the fault stream: `(failed?, store')`. -/
def popFault (st : Store) : Bool × Store :=
  match st.faults with
  | [] => (false, st)
  | f :: rest => (f, { st with faults := rest })

/-- `get_book_by_title`: `SELECT * FROM book_names WHERE title LIKE
'%title%'`, first row in the store's natural order. -/
def get_book_by_title (st : Store) (title : List Char) : Option Book :=
  st.books.find? (fun b => containsCI title b.title)

/-- `get_books_by_partial_title`: title or author `LIKE '%term%'`
(result ordering by title is irrelevant to every claim and omitted;
only the multiset of rows and in particular the row count is used). -/
def get_books_by_partial_title (st : Store) (term : List Char) : List Book :=
  st.books.filter (fun b => containsCI term b.title || containsCI term b.author)

/-- `get_books_by_author`: author `LIKE '%author%'`. -/
def get_books_by_author (st : Store) (author : List Char) : List Book :=
  st.books.filter (fun b => containsCI author b.author)

/-- `UPDATE book_names SET Qty = v WHERE title = t` applied to the book
list (exact title equality). -/
def setQty (bs : List Book) (t : List Char) (v : Int) : List Book :=
  bs.map (fun b => if b.title = t then { b with qty := v } else b)

/-- `update_book_quantity`: one `execute_non_query` write attempt. -/
def update_book_quantity (st : Store) (t : List Char) (v : Int) : Bool × Store :=
  let (failed, st1) := popFault st
  if failed then (false, st1)
  else (true, { st1 with books := setQty st1.books t v })

/-- `get_user_credits`: `SELECT available_credits FROM users WHERE
user_id = ?`. -/
def get_user_credits (st : Store) (user_id : Nat) : Option Int :=
  (st.credits.find? (fun p => p.1 = user_id)).map (·.2)

/-- `UPDATE users SET available_credits = v WHERE user_id = u`. -/
def setCredits (cs : List (Nat × Int)) (u : Nat) (v : Int) : List (Nat × Int) :=
  cs.map (fun p => if p.1 = u then (p.1, v) else p)

/-- `update_user_credits`: one `execute_non_query` write attempt. -/
def update_user_credits (st : Store) (u : Nat) (v : Int) : Bool × Store :=
  let (failed, st1) := popFault st
  if failed then (false, st1)
  else (true, { st1 with credits := setCredits st1.credits u v })

/-! ## Purchase transaction engine (`database_tools.py`)

Result dictionaries become inductive results; the error side records
which `return {"success": False, ...}` site produced it (the string
formatting carries no further information). -/

inductive BuyError
  | bookNotFound
  | notEnoughStock (available : Int)
  | userNotFound
  | notEnoughCredits (required available : Int)
  | qtyUpdateFailed
  | creditsUpdateFailed
deriving DecidableEq, Repr

/-- The success dictionary of `buy_book_transaction`.  Note: there is no
restock-related key; the set of fields below is exactly the set of keys
the source writes. -/
structure BuySuccess where
  book_title : List Char
  quantity_purchased : Int
  credits_spent : Int
  remaining_credits : Int
  remaining_book_qty : Int
deriving DecidableEq, Repr

inductive BuyOutcome
  | ok (s : BuySuccess)
  | err (e : BuyError)
deriving DecidableEq, Repr

def BuyOutcome.success : BuyOutcome → Bool
  | .ok _ => true
  | .err _ => false

def BuyOutcome.remaining_book_qty : BuyOutcome → Option Int
  | .ok s => some s.remaining_book_qty
  | .err _ => none

/-- `BuyAgent.process` reads `result.get("restock_occurred", False)`.
`buy_book_transaction` never writes that key, so the read always yields
the default `False`; this function is that composed observation. -/
def BuyOutcome.restockFlag : BuyOutcome → Bool := fun _ => false

/-- `ChatbotDatabase.buy_book_transaction`. -/
def buy_book_transaction (st : Store) (user_id : Nat) (book_title : List Char)
    (quantity : Int) : BuyOutcome × Store :=
  match get_book_by_title st book_title with
  | none => (.err .bookNotFound, st)
  | some book =>
    if book.qty < quantity then (.err (.notEnoughStock book.qty), st)
    else
      match get_user_credits st user_id with
      | none => (.err .userNotFound, st)
      | some current_credits =>
        let total_cost := quantity * 20
        if current_credits < total_cost then
          (.err (.notEnoughCredits total_cost current_credits), st)
        else
          let new_book_qty := book.qty - quantity
          let (ok1, st1) := update_book_quantity st book.title new_book_qty
          if ok1 then
            let new_credits := current_credits - total_cost
            let (ok2, st2) := update_user_credits st1 user_id new_credits
            if ok2 then
              (.ok { book_title := book.title, quantity_purchased := quantity,
                     credits_spent := total_cost, remaining_credits := new_credits,
                     remaining_book_qty := new_book_qty }, st2)
            else
              -- rollback book quantity change
              (.err .creditsUpdateFailed, (update_book_quantity st2 book.title book.qty).2)
          else (.err .qtyUpdateFailed, st1)

/-- A `{'title': ..., 'quantity': ...}` request dict. -/
structure BookRequest where
  title : List Char
  quantity : Int
deriving DecidableEq, Repr

inductive MultiBuyError
  | invalidQuantity (title : List Char) (q : Int)
  | bookNotFound (title : List Char)
  | notEnoughCopies (title : List Char) (available requested : Int)
  | userNotFound
  | notEnoughCredits (required available : Int)
  | qtyUpdateFailed (title : List Char)
  | creditsUpdateFailed
deriving DecidableEq, Repr

/-- An entry of `purchased_books` in `buy_multiple_books_transaction`. -/
structure PurchasedBook where
  title : List Char
  quantity_purchased : Int
  cost : Int
  remaining_qty : Int
  original_qty : Int
deriving DecidableEq, Repr

/-- The success dictionary of `buy_multiple_books_transaction`
(`transaction_summary` is presentation-only and omitted). -/
structure MultiBuySuccess where
  purchased_books : List PurchasedBook
  total_books_purchased : Int
  total_credits_spent : Int
  remaining_credits : Int
deriving DecidableEq, Repr

inductive MultiBuyResult
  | ok (s : MultiBuySuccess)
  | err (e : MultiBuyError)
deriving DecidableEq, Repr

def MultiBuyResult.success : MultiBuyResult → Bool
  | .ok _ => true
  | .err _ => false

/-- Does the result come from the `"Failed to update quantity for ..."`
branch (a Phase-2 stock write fault)? -/
def MultiBuyResult.isQtyUpdateFailure : MultiBuyResult → Bool
  | .err (.qtyUpdateFailed _) => true
  | _ => false

/-- An entry of `validated_books`: the Phase-1 snapshot for one line. -/
structure ValidatedBook where
  book : Book
  requested_quantity : Int
  cost : Int
  actual_title : List Char
deriving DecidableEq, Repr

/-- Phase 1 of `buy_multiple_books_transaction`: validate every line and
accumulate `validated_books` and `total_cost`, or stop at the first
rejection.  Read-only. -/
def validateBooks (st : Store) : List BookRequest →
    Except MultiBuyError (List ValidatedBook × Int)
  | [] => .ok ([], 0)
  | r :: rest =>
    if r.quantity ≤ 0 then .error (.invalidQuantity r.title r.quantity)
    else
      match get_book_by_title st r.title with
      | none => .error (.bookNotFound r.title)
      | some book =>
        if book.qty < r.quantity then
          .error (.notEnoughCopies book.title book.qty r.quantity)
        else
          match validateBooks st rest with
          | .error e => .error e
          | .ok (vs, total) =>
            .ok ({ book := book, requested_quantity := r.quantity,
                   cost := r.quantity * 20, actual_title := book.title } :: vs,
                 r.quantity * 20 + total)

/-- The rollback loop: `for prev_book in purchased_books:
update_book_quantity(prev_book['actual_title'], prev_book['original_qty'])`
(return values ignored). -/
def rollbackBooks : List PurchasedBook → Store → Store
  | [], st => st
  | pb :: rest, st => rollbackBooks rest (update_book_quantity st pb.title pb.original_qty).2

/-- Phase 2 stock-decrement loop of `buy_multiple_books_transaction`:
apply each line's write, accumulating `purchased_books`; on a write
fault, roll back the lines already committed and fail. -/
def commitBooks : List ValidatedBook → List PurchasedBook → Store →
    Except MultiBuyError (List PurchasedBook) × Store
  | [], acc, st => (.ok acc, st)
  | vb :: rest, acc, st =>
    let new_book_qty := vb.book.qty - vb.requested_quantity
    let (ok1, st1) := update_book_quantity st vb.actual_title new_book_qty
    if ok1 then
      commitBooks rest
        (acc ++ [{ title := vb.actual_title, quantity_purchased := vb.requested_quantity,
                   cost := vb.cost, remaining_qty := new_book_qty,
                   original_qty := vb.book.qty }]) st1
    else
      (.error (.qtyUpdateFailed vb.actual_title), rollbackBooks acc st1)

/-- `ChatbotDatabase.buy_multiple_books_transaction`. -/
def buy_multiple_books_transaction (st : Store) (user_id : Nat)
    (book_requests : List BookRequest) : MultiBuyResult × Store :=
  match validateBooks st book_requests with
  | .error e => (.err e, st)
  | .ok (validated_books, total_cost) =>
    match get_user_credits st user_id with
    | none => (.err .userNotFound, st)
    | some current_credits =>
      if current_credits < total_cost then
        (.err (.notEnoughCredits total_cost current_credits), st)
      else
        match commitBooks validated_books [] st with
        | (.error e, st1) => (.err e, st1)
        | (.ok purchased_books, st1) =>
          let new_credits := current_credits - total_cost
          let (ok2, st2) := update_user_credits st1 user_id new_credits
          if ok2 then
            (.ok { purchased_books := purchased_books,
                   total_books_purchased := (purchased_books.map (·.quantity_purchased)).sum,
                   total_credits_spent := total_cost,
                   remaining_credits := new_credits }, st2)
          else
            (.err .creditsUpdateFailed, rollbackBooks purchased_books st2)

inductive AddCreditsResult
  | ok (credits_added new_credits_total : Int)
  | userNotFound
  | updateFailed
deriving DecidableEq, Repr

def AddCreditsResult.success : AddCreditsResult → Bool
  | .ok _ _ => true
  | _ => false

/-- `ChatbotDatabase.add_credits_transaction`.  Note: the source
performs no validation of `credits_to_add` whatsoever. -/
def add_credits_transaction (st : Store) (user_id : Nat) (credits_to_add : Int) :
    AddCreditsResult × Store :=
  match get_user_credits st user_id with
  | none => (.userNotFound, st)
  | some current_credits =>
    let new_credits := current_credits + credits_to_add
    let (ok1, st1) := update_user_credits st user_id new_credits
    if ok1 then (.ok credits_to_add new_credits, st1)
    else (.updateFailed, st1)

/-! ## BuyAgent request parsers (`agents.py`)

Each quantity regex is modelled by a matcher
`List Char → Option (Nat × List Char)` that attempts a match anchored at
the head of the given suffix and returns the captured integer together
with the input remaining after the matched span.  `re.search` becomes a
scan over suffixes for the leftmost match; `re.sub(pattern, '')`
removes every non-overlapping match left to right.  For these concrete
patterns, greedy matching with the backtracking collapsed is exact: a
shorter `\d+`/`\s*` always leaves the next mandatory token facing a
digit or a space it cannot consume. -/

/-- The unit alternation `(?:copies|copy|books|book)`, case-insensitive,
alternatives tried in source order. -/
def stripUnitWord (s : List Char) : Option (List Char) :=
  match stripCI "copies".data s with
  | some r => some r
  | none =>
  match stripCI "copy".data s with
  | some r => some r
  | none =>
  match stripCI "books".data s with
  | some r => some r
  | none => stripCI "book".data s

/-- Pattern 1: `(\d+)\s*(?:copies|copy|books|book)`. -/
def matchP1 (s : List Char) : Option (Nat × List Char) :=
  let (d, r1) := digitRun s
  if d.isEmpty then none
  else
    let (_, r2) := spaceRun r1
    match stripUnitWord r2 with
    | some rest => some (digitsToNat d, rest)
    | none => none

/-- Pattern 2: `quantity\s*:?\s*(\d+)`. -/
def matchP2 (s : List Char) : Option (Nat × List Char) :=
  match stripCI "quantity".data s with
  | none => none
  | some r1 =>
    let (_, r2) := spaceRun r1
    let r3 := match r2 with | ':' :: t => t | other => other
    let (_, r4) := spaceRun r3
    let (d, r5) := digitRun r4
    if d.isEmpty then none else some (digitsToNat d, r5)

/-- Pattern 3: `,\s*(\d+)(?:\s*(?:copies|copy|books|book))?`. -/
def matchP3 (s : List Char) : Option (Nat × List Char) :=
  match s with
  | ',' :: r1 =>
    let (_, r2) := spaceRun r1
    let (d, r3) := digitRun r2
    if d.isEmpty then none
    else
      let (_, r4) := spaceRun r3
      match stripUnitWord r4 with
      | some rest => some (digitsToNat d, rest)
      | none => some (digitsToNat d, r3)
  | _ => none

/-- Pattern 4: `:\s*(\d+)`. -/
def matchP4 (s : List Char) : Option (Nat × List Char) :=
  match s with
  | ':' :: r1 =>
    let (_, r2) := spaceRun r1
    let (d, r3) := digitRun r2
    if d.isEmpty then none else some (digitsToNat d, r3)
  | _ => none

/-- Pattern 5 / the end-number pattern `\b(\d+)\s*$`: leftmost digit run
that sits at a word boundary and is followed only by whitespace up to
the end.  Returns the captured value and the input with the matched
span (which extends to the end of the string) removed, covering both
`re.search` and the corresponding `re.sub`. -/
def scanP5 (prevIsWord : Bool) (acc : List Char) : List Char → Option (Nat × List Char)
  | [] => none
  | c :: rest =>
    if ¬prevIsWord ∧ isPyDigit c then
      let (d, r) := digitRun (c :: rest)
      if r.all isPySpace then some (digitsToNat d, acc.reverse)
      else scanP5 (isWordChar c) (c :: acc) rest
    else scanP5 (isWordChar c) (c :: acc) rest

def matchEndNumber (s : List Char) : Option (Nat × List Char) := scanP5 false [] s

/-- `re.search`: the captured value of the leftmost match. -/
def findFirstVal (m : List Char → Option (Nat × List Char)) : List Char → Option Nat
  | [] => none
  | c :: rest =>
    match m (c :: rest) with
    | some (v, _) => some v
    | none => findFirstVal m rest

/-- `re.sub(pattern, '')`: remove all non-overlapping matches, scanning
left to right.  Fueled; every matcher used consumes at least one
character per match, so fuel = length never runs out. -/
def removeAllFuel (m : List Char → Option (Nat × List Char)) :
    Nat → List Char → List Char
  | 0, s => s
  | _ + 1, [] => []
  | fuel + 1, c :: rest =>
    match m (c :: rest) with
    | some (_, r) => removeAllFuel m fuel r
    | none => c :: removeAllFuel m fuel rest

def removeAll (m : List Char → Option (Nat × List Char)) (s : List Char) : List Char :=
  removeAllFuel m s.length s

/-- The pattern loop of `BuyAgent._parse_single_buy_request`: first
pattern whose search hits wins; its value is the first match's capture
and the input has all matches of that pattern removed. -/
def tryQuantityPatterns (input : List Char) : Option (Nat × List Char) :=
  match findFirstVal matchP1 input with
  | some v => some (v, removeAll matchP1 input)
  | none =>
  match findFirstVal matchP2 input with
  | some v => some (v, removeAll matchP2 input)
  | none =>
  match findFirstVal matchP3 input with
  | some v => some (v, removeAll matchP3 input)
  | none =>
  match findFirstVal matchP4 input with
  | some v => some (v, removeAll matchP4 input)
  | none => matchEndNumber input

/-- `BuyAgent._parse_single_buy_request`. -/
def parse_single_buy_request (input : List Char) : List Char × Nat :=
  let (q0, s0) :=
    match tryQuantityPatterns input with
    | some (v, s) => (v, s)
    | none => (0, input)
  let (q1, s1) :=
    if q0 = 0 then
      match matchEndNumber s0 with
      | some (v, s) => (v, s)
      | none => (1, s0)
    else (q0, s0)
  let book_title := pyStripWs (pyStripSet [' ', ',', ':'] s1)
  if book_title.isEmpty ∨ book_title.length < 2 then (pyStripWs input, 1)
  else (book_title, q1)

/-- `re.findall(r'([^,:]+):\s*(\d+)')`: every maximal `[^,:]` run that
is immediately followed by a colon, optional whitespace and at least
one digit; scanning resumes after the digits of each match. -/
def colonScanFuel : Nat → List Char → List Char → List (List Char × Nat)
  | 0, _, _ => []
  | _ + 1, _, [] => []
  | fuel + 1, run, ':' :: rest =>
    if run.isEmpty then colonScanFuel fuel [] rest
    else
      let (_, r1) := spaceRun rest
      let (d, r2) := digitRun r1
      if d.isEmpty then colonScanFuel fuel [] rest
      else (run.reverse, digitsToNat d) :: colonScanFuel fuel [] r2
  | fuel + 1, _, ',' :: rest => colonScanFuel fuel [] rest
  | fuel + 1, run, c :: rest => colonScanFuel fuel (c :: run) rest

def colonMatches (s : List Char) : List (List Char × Nat) :=
  colonScanFuel s.length [] s

/-- `re.search(r'^(.+?)\s+(\d+)$')` on a part: a non-empty maximal
trailing digit run, preceded by non-empty whitespace, preceded by a
non-empty title; returns `(title-group, value)`. -/
def numberMatch (s : List Char) : Option (List Char × Nat) :=
  let rev := s.reverse
  let (dRev, r1) := takeRun isPyDigit rev
  if dRev.isEmpty then none
  else
    let (wRev, r2) := takeRun isPySpace r1
    if wRev.isEmpty then none
    else if r2.isEmpty then none
    else some (r2.reverse, digitsToNat dRev.reverse)

/-- `re.search(r'\d+\s*(?:copies?|books?)')` as a Boolean: note the
pattern accepts the stems "copie"/"book" with an optional trailing
`s`. -/
def hasQtyUnitPhrase : List Char → Bool
  | [] => false
  | c :: rest =>
    if isPyDigit c then
      let (_, r1) := digitRun (c :: rest)
      let (_, r2) := spaceRun r1
      (stripCI "copie".data r2).isSome || (stripCI "book".data r2).isSome
        || hasQtyUnitPhrase rest
    else hasQtyUnitPhrase rest

/-- The comma-separated "Title Number" detection loop of
`_parse_multiple_buy_request`: returns the accumulated
`temp_requests` together with the `all_parts_have_numbers` flag; a part
matching a bare quantity-with-unit phrase breaks out of the loop with
the flag cleared. -/
def commaLoop : List (List Char) → List (List Char × Nat) × Bool
  | [] => ([], true)
  | p :: restParts =>
    let part := pyStripWs p
    match numberMatch part with
    | some (t, q) =>
      let title := pyStripWs t
      let here := if ¬title.isEmpty ∧ 0 < q then [(title, q)] else []
      let (l, flag) := commaLoop restParts
      (here ++ l, flag)
    | none =>
      if hasQtyUnitPhrase part then ([], false)
      else if part.isEmpty then commaLoop restParts
      else
        let (l, _) := commaLoop restParts
        ((part, 1) :: l, false)

/-- The colon-format branch: each `findall` group, stripped and kept
only when the title is non-empty and the quantity positive. -/
def colonRequests (user_input : List Char) : List (List Char × Nat) :=
  (colonMatches user_input).filterMap (fun tq =>
    let t := pyStripWs tq.1
    if ¬t.isEmpty ∧ 0 < tq.2 then some (t, tq.2) else none)

/-- The multiple-book detection performed when no `;`/`and`/`&`
separator split the input (`parts` is still the whole string): colon
groups first, then the unanimous comma-separated "Title Number"
heuristic; `none` means fall through to per-part single parsing. -/
def structuredRequests (user_input : List Char) (parts : List (List Char)) :
    Option (List (List Char × Nat)) :=
  if parts.length = 1 then
    if ¬(colonMatches user_input).isEmpty ∧ ¬(colonRequests user_input).isEmpty then
      some (colonRequests user_input)
    else
      let comma_parts := splitOnChar ',' user_input
      if comma_parts.length > 1 then
        let (temp_requests, allNums) := commaLoop comma_parts
        if temp_requests.length > 1 ∧ allNums then some temp_requests else none
      else none
  else none

/-- `BuyAgent._parse_multiple_buy_request`. -/
def parse_multiple_buy_request (user_input : List Char) : List (List Char × Nat) :=
  let parts :=
    if containsSub ";".data user_input then splitOnChar ';' user_input
    else if containsSub " and ".data user_input then splitOnSub " and ".data user_input
    else if containsSub " & ".data user_input then splitOnSub " & ".data user_input
    else [user_input]
  match structuredRequests user_input parts with
  | some reqs => reqs
  | none =>
    parts.filterMap (fun p =>
      let part := pyStripWs p
      if part.isEmpty then none
      else
        let (t, q) := parse_single_buy_request part
        if ¬t.isEmpty ∧ 0 < q then some (t, q) else none)

/-! ## Session manager (`session_manager.py`)

Wall-clock time (`time.time()`) is a simulated clock passed as a `Nat`
of seconds.  The global dict `sessions` is an association list keyed by
user id. -/

inductive ConversationState
  | initial
  | waiting_for_search
  | waiting_for_buy_details
  | waiting_for_return_details
  | waiting_for_credits
deriving DecidableEq, Repr

inductive Role
  | user
  | assistant
deriving DecidableEq, Repr

/-- One `{role, content, timestamp}` entry of `conversation_history`. -/
structure HistEntry where
  role : Role
  content : List Char
  timestamp : Nat
deriving DecidableEq, Repr

structure ChatSession where
  user_id : Nat
  username : List Char
  state : ConversationState
  conversation_history : List HistEntry
  last_activity : Nat
deriving DecidableEq, Repr

/-- `ChatSession.__init__`. -/
def ChatSession.mkNew (uid : Nat) (uname : List Char) (now : Nat) : ChatSession :=
  { user_id := uid, username := uname, state := .initial,
    conversation_history := [], last_activity := now }

/-- `ChatSession.add_message` (timestamps the entry and touches
`last_activity` via `update_activity`). -/
def ChatSession.add_message (s : ChatSession) (role : Role) (content : List Char)
    (now : Nat) : ChatSession :=
  { s with conversation_history := s.conversation_history ++ [⟨role, content, now⟩],
           last_activity := now }

/-- `ChatSession.set_state` (also touches `last_activity`). -/
def ChatSession.set_state (s : ChatSession) (st : ConversationState) (now : Nat) :
    ChatSession :=
  { s with state := st, last_activity := now }

/-- `ChatSession.is_expired` with the default 30-minute timeout:
`(time.time() - self.last_activity) > (30 * 60)`. -/
def ChatSession.is_expired (now : Nat) (s : ChatSession) : Bool :=
  1800 < now - s.last_activity

abbrev SessionMap := List (Nat × ChatSession)

/-- Dict lookup `sessions.get(user_id)` (keys are unique in a Python
dict; on the association list the first hit wins). -/
def lookupSession : SessionMap → Nat → Option ChatSession
  | [], _ => none
  | (k, s) :: rest, uid => if k = uid then some s else lookupSession rest uid

/-- Dict store `sessions[user_id] = session` (replace in place, or
append a new entry — Python dicts keep insertion order). -/
def putSession : SessionMap → Nat → ChatSession → SessionMap
  | [], uid, session => [(uid, session)]
  | (k, s0) :: rest, uid, session =>
    if k = uid then (k, session) :: rest
    else (k, s0) :: putSession rest uid session

/-- `SessionManager.get_session`: get or create the entry, refresh its
username and `last_activity`, then run `_cleanup_expired_sessions`
(which therefore never evicts the session just refreshed). -/
def get_session (sessions : SessionMap) (now : Nat) (uid : Nat) (uname : List Char) :
    ChatSession × SessionMap :=
  let session :=
    match lookupSession sessions uid with
    | none => ChatSession.mkNew uid uname now
    | some s0 => { s0 with username := uname, last_activity := now }
  let afterPut := putSession sessions uid session
  (session, afterPut.filter (fun p => ¬p.2.is_expired now))

/-! ## Stateful dialogue router (`stateful_workflow.py`)

`_parse_search_intent` wraps an LLM call whose JSON reply (or the
fallback on malformed output) yields a search type and value; it is
abstracted as an oracle parameter.  Response texts are abbreviated to
stable markers: every response string built by the source is non-empty
and its wording is presentation-only; no claim depends on more than the
identity and non-emptiness of the text. -/

inductive SearchType
  | author
  | title
  | general
deriving DecidableEq, Repr

structure SearchIntent where
  search_type : SearchType
  search_value : List Char
deriving DecidableEq, Repr

abbrev SearchOracle := List Char → SearchIntent

structure Response where
  success : Bool
  response : List Char
deriving DecidableEq, Repr

def msgSearchPrompt : List Char := "prompt:search".data
def msgBuyPrompt : List Char := "prompt:buy".data
def msgCreditsPrompt : List Char := "prompt:credits".data
def msgSearchAskAgain : List Char := "search:ask-term".data
def msgNoBooksFound : List Char := "search:none".data
def msgFoundOneBook : List Char := "search:one".data
def msgFoundManyBooks : List Char := "search:many".data
def msgBuyFormatHelp : List Char := "buy:format-help".data
def msgPurchaseOk : List Char := "buy:success".data
def msgPurchaseFail : List Char := "buy:failed".data
def msgCreditsAskAmount : List Char := "credits:ask-amount".data
def msgCreditsOk : List Char := "credits:success".data
def msgCreditsFail : List Char := "credits:failed".data
def msgCreditsError : List Char := "credits:error".data
def msgInvalidCommand : List Char := "help:commands".data

/-- `StatefulChatbotWorkflow._parse_buy_request` (three patterns, no
default quantity). -/
def parse_buy_request (user_input : List Char) : List Char × Nat :=
  let (q, s) :=
    match findFirstVal matchP1 user_input with
    | some v => (v, removeAll matchP1 user_input)
    | none =>
    match findFirstVal matchP2 user_input with
    | some v => (v, removeAll matchP2 user_input)
    | none =>
    match findFirstVal matchP3 user_input with
    | some v => (v, removeAll matchP3 user_input)
    | none => (0, user_input)
  (pyStripWs (pyStripSet [' ', ','] s), q)

/-- `_handle_search_input`. -/
def handle_search_input (oracle : SearchOracle) (now : Nat) (session : ChatSession)
    (search_term : List Char) (store : Store) : Response × ChatSession × Store :=
  let term := pyStripWs search_term
  if term.isEmpty then
    ({ success := true, response := msgSearchAskAgain }, session, store)
  else
    let params := oracle term
    let books :=
      match params.search_type with
      | .author => get_books_by_author store params.search_value
      | .title => get_books_by_partial_title store params.search_value
      | .general => get_books_by_partial_title store term
    let text :=
      if books.isEmpty then msgNoBooksFound
      else if books.length = 1 then msgFoundOneBook
      else msgFoundManyBooks
    ({ success := true, response := text }, session.set_state .initial now, store)

/-- `_handle_buy_input`. -/
def handle_buy_input (now : Nat) (session : ChatSession) (message : List Char)
    (store : Store) : Response × ChatSession × Store :=
  let (book_title, quantity) := parse_buy_request message
  if book_title.isEmpty ∨ quantity = 0 then
    ({ success := true, response := msgBuyFormatHelp }, session, store)
  else
    let (result, store1) := buy_book_transaction store session.user_id book_title (quantity : Int)
    let text := if result.success then msgPurchaseOk else msgPurchaseFail
    ({ success := true, response := text }, session.set_state .initial now, store1)

/-- `_handle_credits_input`.  A zero extracted amount triggers
`raise ValueError`, caught by the handler's own `except` branch, which
resets the state and reports `success: False` with an apology text. -/
def handle_credits_input (now : Nat) (session : ChatSession) (message : List Char)
    (store : Store) : Response × ChatSession × Store :=
  match firstDigitRun message with
  | none => ({ success := true, response := msgCreditsAskAmount }, session, store)
  | some n =>
    if n = 0 then
      ({ success := false, response := msgCreditsError }, session.set_state .initial now, store)
    else
      let (result, store1) := add_credits_transaction store session.user_id (n : Int)
      let text := if result.success then msgCreditsOk else msgCreditsFail
      ({ success := true, response := text }, session.set_state .initial now, store1)

/-- `_handle_invalid_command`. -/
def handle_invalid_command (session : ChatSession) (store : Store) :
    Response × ChatSession × Store :=
  ({ success := true, response := msgInvalidCommand }, session, store)

/-- `_handle_invalid_state`. -/
def handle_invalid_state (now : Nat) (session : ChatSession) (store : Store) :
    Response × ChatSession × Store :=
  handle_invalid_command (session.set_state .initial now) store

/-- `_try_natural_language`. -/
def try_natural_language (oracle : SearchOracle) (now : Nat) (session : ChatSession)
    (message : List Char) (store : Store) : Response × ChatSession × Store :=
  let lower_msg := lowerStr message
  if ¬(containsSub "buy".data lower_msg || containsSub "purchase".data lower_msg
        || containsSub "credit".data lower_msg) then
    handle_search_input oracle now (session.set_state .waiting_for_search now) message store
  else if (containsSub "buy".data lower_msg || containsSub "purchase".data lower_msg)
      && (containsSub "copy".data lower_msg || containsSub "copies".data lower_msg
          || containsSub "book".data lower_msg) then
    handle_buy_input now (session.set_state .waiting_for_buy_details now) message store
  else if (containsSub "credit".data lower_msg || containsSub "credits".data lower_msg)
      && (firstDigitRun message).isSome then
    handle_credits_input now (session.set_state .waiting_for_credits now) message store
  else
    handle_invalid_command session store

/-- `_handle_initial_state`. -/
def handle_initial_state (oracle : SearchOracle) (now : Nat) (session : ChatSession)
    (message : List Char) (store : Store) : Response × ChatSession × Store :=
  let user_message := pyStripWs (lowerStr message)
  if user_message = "query".data then
    ({ success := true, response := msgSearchPrompt },
     session.set_state .waiting_for_search now, store)
  else if user_message = "buy".data then
    ({ success := true, response := msgBuyPrompt },
     session.set_state .waiting_for_buy_details now, store)
  else if user_message = "buy credits".data then
    ({ success := true, response := msgCreditsPrompt },
     session.set_state .waiting_for_credits now, store)
  else
    try_natural_language oracle now session message store

structure WorkflowState where
  sessions : SessionMap
  store : Store
deriving DecidableEq, Repr

/-- `StatefulChatbotWorkflow.process_message`: session lookup, append
the user turn, dispatch on the current state, and append the assistant
turn when the handler reported success with a response.  The Python
session object is mutated in place and aliased by the manager's dict;
the model threads the session value and writes it back at the end. -/
def process_message (oracle : SearchOracle) (now : Nat) (ws : WorkflowState)
    (user_id : Nat) (username message : List Char) : Response × WorkflowState :=
  let (session0, sessions1) := get_session ws.sessions now user_id username
  let session1 := session0.add_message .user message now
  let (resp, session2, store1) :=
    match session1.state with
    | .initial => handle_initial_state oracle now session1 message ws.store
    | .waiting_for_search => handle_search_input oracle now session1 message ws.store
    | .waiting_for_buy_details => handle_buy_input now session1 message ws.store
    | .waiting_for_credits => handle_credits_input now session1 message ws.store
    | .waiting_for_return_details => handle_invalid_state now session1 ws.store
  let session3 :=
    if resp.success ∧ ¬resp.response.isEmpty then
      session2.add_message .assistant resp.response now
    else session2
  (resp, { sessions := putSession sessions1 user_id session3, store := store1 })

/-! ## Claim C8: parser scenarios -/

/-- C8: the Request Parser maps `"Dune, 3 copies"` to the single item
`("Dune", 3)`; `"Dune: 2, Foundation: 1"` to
`[("Dune", 2), ("Foundation", 1)]`; credit-amount extraction on
`"50 credits"` yields `50`; and `"Foundation"` alone parses as
`("Foundation", 1)`. -/
theorem c8_parser_scenarios :
    parse_multiple_buy_request "Dune, 3 copies".data = [("Dune".data, 3)] ∧
    parse_multiple_buy_request "Dune: 2, Foundation: 1".data
      = [("Dune".data, 2), ("Foundation".data, 1)] ∧
    firstDigitRun "50 credits".data = some 50 ∧
    parse_single_buy_request "Foundation".data = ("Foundation".data, 1) := by
  decide

/-! ## Claim C1: the restock policy is absent from the code -/

/-- C1 (divergence witness): a single-item purchase that drives the
stock of "Dune" from 5 to exactly 0 succeeds, but the store afterwards
still holds 0 copies (no replenishment write to 20 ever happens) and
the result carries no restock flag (`result.get("restock_occurred",
False)` reads its default). -/
theorem c1_no_restock_at_zero :
    buy_book_transaction
        { books := [{ title := "Dune".data, author := "Frank Herbert".data, qty := 5 }],
          credits := [(1, 100)], faults := [] } 1 "Dune".data 5 =
      (.ok { book_title := "Dune".data, quantity_purchased := 5, credits_spent := 100,
             remaining_credits := 0, remaining_book_qty := 0 },
       { books := [{ title := "Dune".data, author := "Frank Herbert".data, qty := 0 }],
         credits := [(1, 0)], faults := [] }) ∧
    BuyOutcome.restockFlag
      (buy_book_transaction
        { books := [{ title := "Dune".data, author := "Frank Herbert".data, qty := 5 }],
          credits := [(1, 100)], faults := [] } 1 "Dune".data 5).1 = false := by
  decide

/-! ## Claim C7: add_credits performs no amount validation -/

/-- C7 (counterexample): `add_credits_transaction` applied to the
non-positive amount `-30` is not rejected: it succeeds and debits the
account from 100 to 70. -/
theorem c7_counterexample :
    add_credits_transaction { books := [], credits := [(7, 100)], faults := [] } 7 (-30) =
      (.ok (-30) 70, { books := [], credits := [(7, 70)], faults := [] }) := by
  decide

/-! ## Claim C10: the single-item parser can return quantity 0 -/

/-- C10 (counterexample): on `"Dune 0 0 copies"` the first quantity
pattern matches `0`, and the zero-replacement branch then re-extracts a
`0` from the trailing `"0"` left in the stripped input, so the parser
returns quantity `0`, not a value `≥ 1`. -/
theorem c10_counterexample :
    parse_single_buy_request "Dune 0 0 copies".data = ("Dune".data, 0) := by
  decide

/-! ## Claim C2: an expired session is revived, not replaced -/

/-- C2 (counterexample): user 1's session (state
`WAITING_FOR_BUY_DETAILS`, one logged turn) has been idle for 2000 s,
well past the 30-minute timeout, when the next message arrives.  The
message is handled by the buy-details handler of the *old* session —
not by a fresh `INITIAL` session — and afterwards the stored session
still holds the pre-expiry turn followed by the new ones:
`get_session` refreshes `last_activity` before running the cleanup, so
the requester's own expired session survives. -/
theorem c2_counterexample :
    (let s0 : ChatSession :=
      { user_id := 1, username := "alice".data, state := .waiting_for_buy_details,
        conversation_history := [⟨.user, "buy".data, 0⟩], last_activity := 0 }
    let ws : WorkflowState :=
      { sessions := [(1, s0)], store := { books := [], credits := [], faults := [] } }
    let r := process_message (fun t => ⟨.general, t⟩) 2000 ws 1 "alice".data "hi".data
    lookupSession r.2.sessions 1 =
      some { user_id := 1, username := "alice".data, state := .waiting_for_buy_details,
             conversation_history :=
               [⟨.user, "buy".data, 0⟩, ⟨.user, "hi".data, 2000⟩,
                ⟨.assistant, msgBuyFormatHelp, 2000⟩],
             last_activity := 2000 }) := by
  decide

/-! ## Claim C9: a produced failure response is not appended -/

/-- C9 (counterexample): in `WAITING_FOR_CREDITS`, the message
`"0 credits"` makes `_handle_credits_input` raise (amount `≤ 0`), and
its `except` branch produces a non-empty apology response with
`success: False`.  `process_message` returns that response to the
caller but appends no assistant entry: the turn log gains only the user
entry, although a response was produced. -/
theorem c9_counterexample :
    (let s0 : ChatSession :=
      { user_id := 2, username := "bob".data, state := .waiting_for_credits,
        conversation_history := [], last_activity := 100 }
    let ws : WorkflowState :=
      { sessions := [(2, s0)], store := { books := [], credits := [(2, 50)], faults := [] } }
    let r := process_message (fun t => ⟨.general, t⟩) 200 ws 2 "bob".data "0 credits".data
    r.1.response = msgCreditsError ∧ r.1.response.isEmpty = false ∧
    lookupSession r.2.sessions 2 =
      some { user_id := 2, username := "bob".data, state := .initial,
             conversation_history := [⟨.user, "0 credits".data, 200⟩],
             last_activity := 200 }) := by
  decide

/-! ## Helper lemmas about fault-free writes -/

lemma popFault_nil (st : Store) (hf : st.faults = []) : popFault st = (false, st) := by
  simp [popFault, hf]

lemma update_book_quantity_nofault (st : Store) (t : List Char) (v : Int)
    (hf : st.faults = []) :
    update_book_quantity st t v = (true, { st with books := setQty st.books t v }) := by
  simp [update_book_quantity, popFault_nil st hf]

lemma update_user_credits_nofault (st : Store) (u : Nat) (v : Int)
    (hf : st.faults = []) :
    update_user_credits st u v = (true, { st with credits := setCredits st.credits u v }) := by
  simp [update_user_credits, popFault_nil st hf]

/-! ## Claim C5: valid single-item purchase postconditions -/

/-- C5: for a single-item purchase whose matched book has stock `≥ q`
and whose account has balance `≥ 20·q`, with all writes succeeding, the
result is success reporting `remaining_book_qty = stock − q` and
`remaining_credits = balance − 20·q`, and the post-state carries
exactly the decremented stock and the debited balance (both mutations
observed together). -/
theorem c5_single_purchase (st : Store) (uid : Nat) (title : List Char) (q : Int)
    (b : Book) (c : Int)
    (hb : get_book_by_title st title = some b)
    (hq : q ≤ b.qty)
    (hc : get_user_credits st uid = some c)
    (hcost : 20 * q ≤ c)
    (hf : st.faults = []) :
    buy_book_transaction st uid title q =
      (.ok { book_title := b.title, quantity_purchased := q, credits_spent := q * 20,
             remaining_credits := c - q * 20, remaining_book_qty := b.qty - q },
       { st with books := setQty st.books b.title (b.qty - q),
                 credits := setCredits st.credits uid (c - q * 20) }) := by
  have h1 : ¬b.qty < q := not_lt.mpr hq
  have h2 : ¬c < q * 20 := not_lt.mpr (by linarith [hcost])
  have hf1 : ({ st with books := setQty st.books b.title (b.qty - q) } : Store).faults = [] := hf
  simp only [buy_book_transaction, hb, hc, if_neg h1, if_neg h2,
    update_book_quantity_nofault st b.title (b.qty - q) hf,
    update_user_credits_nofault _ uid (c - q * 20) hf1]
  simp

/-- Witness for C5 at a concrete store. -/
theorem c5_witness :
    buy_book_transaction
        { books := [{ title := "Dune".data, author := "Frank Herbert".data, qty := 5 }],
          credits := [(1, 100)], faults := [] } 1 "Dune".data 2 =
      (.ok { book_title := "Dune".data, quantity_purchased := 2, credits_spent := 40,
             remaining_credits := 60, remaining_book_qty := 3 },
       { books := [{ title := "Dune".data, author := "Frank Herbert".data, qty := 3 }],
         credits := [(1, 60)], faults := [] }) := by
  rw [c5_single_purchase
        { books := [{ title := "Dune".data, author := "Frank Herbert".data, qty := 5 }],
          credits := [(1, 100)], faults := [] } 1 "Dune".data 2
        { title := "Dune".data, author := "Frank Herbert".data, qty := 5 } 100
        (by decide) (by decide) (by decide) (by decide) rfl]
  decide

/-- C7 (amended): `add_credits_transaction` performs no amount
validation.  It fails only when the account is missing (leaving the
store untouched); otherwise, when the single write succeeds, it sets
`balance' = balance + amount` for *any* integer amount, non-positive
amounts included (those are filtered out by the callers, not here). -/
theorem c7_amended_add_credits (st : Store) (uid : Nat) (amt : Int)
    (hf : st.faults = []) :
    (get_user_credits st uid = none →
      add_credits_transaction st uid amt = (.userNotFound, st)) ∧
    (∀ c, get_user_credits st uid = some c →
      add_credits_transaction st uid amt =
        (.ok amt (c + amt), { st with credits := setCredits st.credits uid (c + amt) })) := by
  constructor
  · intro hn
    simp [add_credits_transaction, hn]
  · intro c hc
    simp [add_credits_transaction, hc, update_user_credits_nofault st uid (c + amt) hf]

/-- Witness for C7 (amended) at a concrete account with a negative
amount. -/
theorem c7_amended_witness :
    add_credits_transaction { books := [], credits := [(7, 100)], faults := [] } 7 (-30) =
      (.ok (-30) 70, { books := [], credits := [(7, 70)], faults := [] }) := by
  rw [(c7_amended_add_credits { books := [], credits := [(7, 100)], faults := [] } 7 (-30)
        rfl).2 100 (by decide)]
  decide

/-! ## Claim C4: Phase-1 rejection performs zero mutations -/

/-- The per-line Phase-1 rejection conditions of
`buy_multiple_books_transaction`: non-positive quantity, no matching
book, or insufficient stock. -/
def lineRejected (st : Store) (r : BookRequest) : Prop :=
  r.quantity ≤ 0 ∨ get_book_by_title st r.title = none ∨
    ∃ b, get_book_by_title st r.title = some b ∧ b.qty < r.quantity

/-- Total cost of a request list at the fixed unit price of 20. -/
def totalCostOf (reqs : List BookRequest) : Int :=
  (reqs.map (fun r => r.quantity * 20)).sum

/-- Phase-1 success means every line passed its checks and the
accumulated total is the sum of the line costs. -/
lemma validateBooks_ok_sound (st : Store) :
    ∀ (reqs : List BookRequest) (vs : List ValidatedBook) (t : Int),
      validateBooks st reqs = .ok (vs, t) →
      (∀ r ∈ reqs, ¬lineRejected st r) ∧ t = totalCostOf reqs
  | [], vs, t, h => by
      simp only [validateBooks, Except.ok.injEq, Prod.mk.injEq] at h
      simp [totalCostOf, ← h.2]
  | r :: rest, vs, t, h => by
      simp only [validateBooks] at h
      by_cases h0 : r.quantity ≤ 0
      · simp [h0] at h
      · rw [if_neg h0] at h
        cases hbk : get_book_by_title st r.title with
        | none => simp [hbk] at h
        | some book =>
          simp only [hbk] at h
          by_cases h1 : book.qty < r.quantity
          · simp [h1] at h
          · rw [if_neg h1] at h
            cases hrec : validateBooks st rest with
            | error e => simp [hrec] at h
            | ok p =>
              obtain ⟨vs', t'⟩ := p
              simp only [hrec] at h
              simp only [Except.ok.injEq, Prod.mk.injEq] at h
              obtain ⟨ih1, ih2⟩ := validateBooks_ok_sound st rest vs' t' hrec
              refine ⟨?_, ?_⟩
              · intro r' hr'
                rcases List.mem_cons.mp hr' with hr' | hr'
                · subst hr'
                  intro hrej
                  rcases hrej with hrej | hrej | ⟨b, hb, hblt⟩
                  · exact h0 hrej
                  · rw [hbk] at hrej; exact Option.noConfusion hrej
                  · rw [hbk] at hb
                    cases hb
                    exact h1 hblt
                · exact ih1 r' hr'
              · rw [← h.2, ih2]
                simp [totalCostOf]

/-- C4: if any line item fails Phase-1 validation (book not found,
insufficient stock, non-positive quantity), or the account is missing,
or the balance is below the total cost, the call fails and the store is
completely unchanged. -/
theorem c4_phase1_rejection (st : Store) (uid : Nat) (reqs : List BookRequest)
    (h : (∃ r ∈ reqs, lineRejected st r) ∨ get_user_credits st uid = none ∨
         ∃ c, get_user_credits st uid = some c ∧ c < totalCostOf reqs) :
    (buy_multiple_books_transaction st uid reqs).1.success = false ∧
    (buy_multiple_books_transaction st uid reqs).2 = st := by
  cases hval : validateBooks st reqs with
  | error e => simp [buy_multiple_books_transaction, hval, MultiBuyResult.success]
  | ok p =>
    obtain ⟨vs, t⟩ := p
    obtain ⟨hlines, ht⟩ := validateBooks_ok_sound st reqs vs t hval
    rcases h with ⟨r, hr, hrej⟩ | hnone | ⟨c, hc, hlt⟩
    · exact absurd hrej (hlines r hr)
    · simp [buy_multiple_books_transaction, hval, hnone, MultiBuyResult.success]
    · have hct : c < t := by rw [ht]; exact hlt
      simp [buy_multiple_books_transaction, hval, hc, hct, MultiBuyResult.success]

/-- Witness for C4: one line requesting 5 copies of a book with
stock 1. -/
theorem c4_witness :
    (buy_multiple_books_transaction
        { books := [{ title := "Dune".data, author := "Frank Herbert".data, qty := 1 }],
          credits := [(1, 100)], faults := [] } 1
        [{ title := "Dune".data, quantity := 5 }]).1.success = false ∧
    (buy_multiple_books_transaction
        { books := [{ title := "Dune".data, author := "Frank Herbert".data, qty := 1 }],
          credits := [(1, 100)], faults := [] } 1
        [{ title := "Dune".data, quantity := 5 }]).2 =
      { books := [{ title := "Dune".data, author := "Frank Herbert".data, qty := 1 }],
        credits := [(1, 100)], faults := [] } :=
  c4_phase1_rejection _ 1 _
    (Or.inl ⟨{ title := "Dune".data, quantity := 5 }, by decide,
      Or.inr (Or.inr ⟨{ title := "Dune".data, author := "Frank Herbert".data, qty := 1 },
        by decide, by decide⟩)⟩)

/-! ## Claim C3: a Phase-2 stock-write fault is fully compensated

The invariant carried through the Phase-2 loop: the current book list
agrees with the pre-call list except possibly on the titles already
written (`touched`), and every recorded snapshot quantity is the
pre-call quantity of every book bearing that exact title. -/

def booksAgree (orig cur : List Book) (touched : List (List Char)) : Prop :=
  List.Forall₂ (fun b0 b => b.title = b0.title ∧ b.author = b0.author ∧
    (b0.title ∉ touched → b.qty = b0.qty)) orig cur

lemma booksAgree_refl (bs : List Book) (touched : List (List Char)) :
    booksAgree bs bs touched := by
  induction bs with
  | nil => exact List.Forall₂.nil
  | cons b rest ih => exact List.Forall₂.cons ⟨rfl, rfl, fun _ => rfl⟩ ih

lemma booksAgree_nil_touched (orig cur : List Book) (h : booksAgree orig cur []) :
    cur = orig := by
  induction h with
  | nil => rfl
  | @cons b0 b l0 l hbb _ ih =>
    obtain ⟨ht, ha, hq⟩ := hbb
    have hb : b = b0 := by
      obtain ⟨t0, a0, q0⟩ := b0
      obtain ⟨t1, a1, q1⟩ := b
      simp only at ht ha
      have hq' := hq (by simp)
      simp only at hq'
      simp [ht, ha, hq']
    rw [hb, ih]

lemma booksAgree_setQty_touch (t : List Char) (v : Int) :
    ∀ {orig cur : List Book} {touched : List (List Char)},
      booksAgree orig cur touched →
      booksAgree orig (setQty cur t v) (touched ++ [t]) := by
  intro orig cur touched h
  induction h with
  | nil => exact List.Forall₂.nil
  | @cons b0 b l0 l hbb _ ih =>
    obtain ⟨ht, ha, hq⟩ := hbb
    refine List.Forall₂.cons ?_ ih
    by_cases hbt : b.title = t
    · refine ⟨?_, ?_, ?_⟩
      · simp only [if_pos hbt]; exact ht
      · simp only [if_pos hbt]; exact ha
      · intro hmem
        refine absurd (List.mem_append_right _ ?_) hmem
        simp [← ht, hbt]
    · refine ⟨?_, ?_, ?_⟩
      · simp only [if_neg hbt]; exact ht
      · simp only [if_neg hbt]; exact ha
      · intro hmem
        simp only [if_neg hbt]
        exact hq (fun hc => hmem (List.mem_append_left _ hc))

lemma booksAgree_setQty_restore (t : List Char) (v : Int) :
    ∀ {orig cur : List Book} {touched : List (List Char)},
      booksAgree orig cur (t :: touched) →
      (∀ b ∈ orig, b.title = t → b.qty = v) →
      booksAgree orig (setQty cur t v) touched := by
  intro orig cur touched h
  induction h with
  | nil => intro _; exact List.Forall₂.nil
  | @cons b0 b l0 l hbb _ ih =>
    intro hv
    obtain ⟨ht, ha, hq⟩ := hbb
    refine List.Forall₂.cons ?_ (ih (fun b hb hbt => hv b (List.mem_cons_of_mem _ hb) hbt))
    by_cases hbt : b.title = t
    · refine ⟨?_, ?_, ?_⟩
      · simp only [if_pos hbt]; exact ht
      · simp only [if_pos hbt]; exact ha
      · intro _
        simp only [if_pos hbt]
        exact (hv b0 (List.mem_cons_self _ _) (by rw [← ht, hbt])).symm
    · refine ⟨?_, ?_, ?_⟩
      · simp only [if_neg hbt]; exact ht
      · simp only [if_neg hbt]; exact ha
      · intro hmem
        simp only [if_neg hbt]
        refine hq ?_
        intro hc
        rcases List.mem_cons.mp hc with hc | hc
        · exact hbt (ht ▸ hc)
        · exact hmem hc

/-- A book-quantity write on a store whose remaining fault stream is
all-`false` succeeds and only rewrites the book list. -/
lemma update_book_quantity_allfalse (st : Store) (t : List Char) (v : Int)
    (hf : ∀ f ∈ st.faults, f = false) :
    ∃ st', update_book_quantity st t v = (true, st') ∧
      st'.books = setQty st.books t v ∧ st'.credits = st.credits ∧
      (∀ f ∈ st'.faults, f = false) := by
  cases hfs : st.faults with
  | nil =>
    refine ⟨_, update_book_quantity_nofault st t v hfs, rfl, rfl, ?_⟩
    intro g hg
    exact hf g hg
  | cons f fs =>
    have hf0 : f = false := hf f (by rw [hfs]; exact List.mem_cons_self _ _)
    refine ⟨{ st with books := setQty st.books t v, faults := fs }, ?_, rfl, rfl, ?_⟩
    · simp [update_book_quantity, popFault, hfs, hf0]
    · intro g hg
      exact hf g (by rw [hfs]; exact List.mem_cons_of_mem _ hg)

lemma rollbackBooks_restores (orig : List Book) :
    ∀ (acc : List PurchasedBook) (st : Store),
      (∀ pb ∈ acc, ∀ b ∈ orig, b.title = pb.title → b.qty = pb.original_qty) →
      booksAgree orig st.books (acc.map (·.title)) →
      (∀ f ∈ st.faults, f = false) →
      (rollbackBooks acc st).books = orig ∧ (rollbackBooks acc st).credits = st.credits
  | [], st, _, hagree, _ => by
      refine ⟨?_, rfl⟩
      simpa [rollbackBooks] using booksAgree_nil_touched orig st.books (by simpa using hagree)
  | pb :: rest, st, hsnap, hagree, hfaults => by
      obtain ⟨st', hupd, hbooks, hcred, hfl⟩ :=
        update_book_quantity_allfalse st pb.title pb.original_qty hfaults
      have hagree' : booksAgree orig st'.books (rest.map (·.title)) := by
        rw [hbooks]
        exact booksAgree_setQty_restore pb.title pb.original_qty
          (by simpa using hagree)
          (fun b hb hbt => hsnap pb (List.mem_cons_self _ _) b hb hbt)
      have hrec := rollbackBooks_restores orig rest st'
        (fun p hp => hsnap p (List.mem_cons_of_mem _ hp)) hagree' hfl
      refine ⟨?_, ?_⟩
      · simpa [rollbackBooks, hupd] using hrec.1
      · simp only [rollbackBooks, hupd]
        rw [hrec.2, hcred]

/-- A fault stream with no `true` entries is all-`false`. -/
lemma count_true_zero_allfalse (fs : List Bool) (h : fs.count true = 0) :
    ∀ f ∈ fs, f = false := by
  intro f hf
  cases f with
  | false => rfl
  | true => exact absurd (List.count_eq_zero.mp h) (fun hn => hn hf)

lemma commitBooks_fail_restores (orig : List Book) :
    ∀ (pending : List ValidatedBook) (acc : List PurchasedBook) (st : Store)
      (e : MultiBuyError) (st' : Store),
      (∀ vb ∈ pending, ∀ b ∈ orig, b.title = vb.actual_title → b.qty = vb.book.qty) →
      (∀ pb ∈ acc, ∀ b ∈ orig, b.title = pb.title → b.qty = pb.original_qty) →
      booksAgree orig st.books (acc.map (·.title)) →
      st.faults.count true ≤ 1 →
      commitBooks pending acc st = (.error e, st') →
      st'.books = orig ∧ st'.credits = st.credits
  | [], acc, st, e, st', _, _, _, _, h => by
      simp [commitBooks] at h
  | vb :: rest, acc, st, e, st', hpend, hsnap, hagree, hcount, h => by
      let pbNew : PurchasedBook :=
        { title := vb.actual_title, quantity_purchased := vb.requested_quantity,
          cost := vb.cost, remaining_qty := vb.book.qty - vb.requested_quantity,
          original_qty := vb.book.qty }
      have hsnap' : ∀ pb ∈ acc ++ [pbNew],
          ∀ b ∈ orig, b.title = pb.title → b.qty = pb.original_qty := by
        intro p hp b hb hbt
        rcases List.mem_append.mp hp with hp | hp
        · exact hsnap p hp b hb hbt
        · simp only [List.mem_singleton] at hp
          subst hp
          exact hpend vb (List.mem_cons_self _ _) b hb hbt
      have hpend' := fun v hv => hpend v (List.mem_cons_of_mem vb hv)
      cases hfs : st.faults with
      | nil =>
        rw [commitBooks] at h
        simp only [update_book_quantity_nofault st vb.actual_title
          (vb.book.qty - vb.requested_quantity) hfs, if_true] at h
        have hrec := commitBooks_fail_restores orig rest _ _ e st' hpend' hsnap'
          (by
            simpa using booksAgree_setQty_touch vb.actual_title
              (vb.book.qty - vb.requested_quantity) hagree)
          (by exact hcount)
          h
        exact ⟨hrec.1, hrec.2⟩
      | cons f fs =>
        cases f with
        | true =>
          rw [commitBooks] at h
          have hupdt : update_book_quantity st vb.actual_title
              (vb.book.qty - vb.requested_quantity) = (false, { st with faults := fs }) := by
            simp [update_book_quantity, popFault, hfs]
          simp only [hupdt, Bool.false_eq_true, if_false, Prod.mk.injEq] at h
          have hzero : fs.count true = 0 := by
            rw [hfs] at hcount
            simp [List.count_cons] at hcount
            omega
          have hroll := rollbackBooks_restores orig acc { st with faults := fs }
            hsnap hagree (count_true_zero_allfalse fs hzero)
          rw [← h.2]
          exact ⟨hroll.1, hroll.2⟩
        | false =>
          rw [commitBooks] at h
          have hupdf : update_book_quantity st vb.actual_title
              (vb.book.qty - vb.requested_quantity) =
              (true, { books := setQty st.books vb.actual_title (vb.book.qty - vb.requested_quantity), credits := st.credits, faults := fs }) := by
            simp [update_book_quantity, popFault, hfs]
          simp only [hupdf, if_true] at h
          have hrec := commitBooks_fail_restores orig rest _ _ e st' hpend' hsnap'
            (by
              simpa using booksAgree_setQty_touch vb.actual_title
                (vb.book.qty - vb.requested_quantity) hagree)
            (by
              rw [hfs] at hcount
              simpa [List.count_cons] using hcount)
            h
          exact ⟨hrec.1, hrec.2⟩

/-- Phase-1 snapshots agree with the store: each validated line's
recorded book is a store row, and (with unique exact titles) every row
bearing its title holds exactly the snapshot quantity. -/
lemma validateBooks_pendingOk (st : Store)
    (hnodup : (st.books.map (·.title)).Nodup) :
    ∀ (reqs : List BookRequest) (vs : List ValidatedBook) (t : Int),
      validateBooks st reqs = .ok (vs, t) →
      ∀ vb ∈ vs, ∀ b ∈ st.books, b.title = vb.actual_title → b.qty = vb.book.qty
  | [], vs, t, h => by
      simp only [validateBooks, Except.ok.injEq, Prod.mk.injEq] at h
      rw [← h.1]
      intro vb hvb
      exact absurd hvb (List.not_mem_nil vb)
  | r :: rest, vs, t, h => by
      simp only [validateBooks] at h
      by_cases h0 : r.quantity ≤ 0
      · simp [h0] at h
      · rw [if_neg h0] at h
        cases hbk : get_book_by_title st r.title with
        | none => simp [hbk] at h
        | some book =>
          simp only [hbk] at h
          by_cases h1 : book.qty < r.quantity
          · simp [h1] at h
          · rw [if_neg h1] at h
            cases hrec : validateBooks st rest with
            | error e => simp [hrec] at h
            | ok p =>
              obtain ⟨vs', t'⟩ := p
              simp only [hrec, Except.ok.injEq, Prod.mk.injEq] at h
              intro vb hvb b hb hbt
              rw [← h.1] at hvb
              rcases List.mem_cons.mp hvb with hvb | hvb
              · subst hvb
                simp only at hbt ⊢
                have hbookmem : book ∈ st.books :=
                  List.mem_of_find?_eq_some hbk
                have : b = book :=
                  List.inj_on_of_nodup_map hnodup hb hbookmem hbt
                rw [this]
              · exact validateBooks_pendingOk st hnodup rest vs' t' hrec vb hvb b hb hbt

/-- C3: whenever a multi-item purchase fails because a Phase-2 stock
write faulted (with at most one injected storage fault and unique book
titles), every already-committed stock decrement has been rolled back
to its exact pre-call value, the account balance is untouched, and the
call reports failure. -/
theorem c3_phase2_fault_rollback (st : Store) (uid : Nat) (reqs : List BookRequest)
    (hnodup : (st.books.map (·.title)).Nodup)
    (hfault : st.faults.count true ≤ 1)
    (hfail : (buy_multiple_books_transaction st uid reqs).1.isQtyUpdateFailure = true) :
    (buy_multiple_books_transaction st uid reqs).1.success = false ∧
    (buy_multiple_books_transaction st uid reqs).2.books = st.books ∧
    (buy_multiple_books_transaction st uid reqs).2.credits = st.credits := by
  cases hval : validateBooks st reqs with
  | error e => simp [buy_multiple_books_transaction, hval, MultiBuyResult.success]
  | ok p =>
    obtain ⟨vs, t⟩ := p
    cases hcred : get_user_credits st uid with
    | none => simp [buy_multiple_books_transaction, hval, hcred, MultiBuyResult.success]
    | some c =>
      by_cases hlt : c < t
      · simp [buy_multiple_books_transaction, hval, hcred, hlt, MultiBuyResult.success]
      · rcases hcommit : commitBooks vs [] st with ⟨res, st1⟩
        cases res with
        | error e =>
          have hres : buy_multiple_books_transaction st uid reqs = (.err e, st1) := by
            simp [buy_multiple_books_transaction, hval, hcred, hlt, hcommit]
          have hrestore := commitBooks_fail_restores st.books vs [] st e st1
            (validateBooks_pendingOk st hnodup reqs vs t hval)
            (by simp) (booksAgree_refl st.books []) hfault hcommit
          rw [hres]
          exact ⟨rfl, hrestore.1, hrestore.2⟩
        | ok purchased =>
          exfalso
          rcases hup : update_user_credits st1 uid (c - t) with ⟨ok2, st2⟩
          cases ok2 <;>
            simp [buy_multiple_books_transaction, hval, hcred, hlt, hcommit, hup,
              MultiBuyResult.isQtyUpdateFailure] at hfail

/-- Witness for C3: two lines, the second stock write faults; the first
line's decrement of "Dune" is rolled back and the balance stays 100. -/
theorem c3_witness :
    (buy_multiple_books_transaction
        { books := [{ title := "Dune".data, author := "Frank Herbert".data, qty := 5 },
                    { title := "Foundation".data, author := "Isaac Asimov".data, qty := 7 }],
          credits := [(1, 100)], faults := [false, true] } 1
        [{ title := "Dune".data, quantity := 2 },
         { title := "Foundation".data, quantity := 3 }]).1.success = false ∧
    (buy_multiple_books_transaction
        { books := [{ title := "Dune".data, author := "Frank Herbert".data, qty := 5 },
                    { title := "Foundation".data, author := "Isaac Asimov".data, qty := 7 }],
          credits := [(1, 100)], faults := [false, true] } 1
        [{ title := "Dune".data, quantity := 2 },
         { title := "Foundation".data, quantity := 3 }]).2.books =
      [{ title := "Dune".data, author := "Frank Herbert".data, qty := 5 },
       { title := "Foundation".data, author := "Isaac Asimov".data, qty := 7 }] ∧
    (buy_multiple_books_transaction
        { books := [{ title := "Dune".data, author := "Frank Herbert".data, qty := 5 },
                    { title := "Foundation".data, author := "Isaac Asimov".data, qty := 7 }],
          credits := [(1, 100)], faults := [false, true] } 1
        [{ title := "Dune".data, quantity := 2 },
         { title := "Foundation".data, quantity := 3 }]).2.credits = [(1, 100)] := by
  have h := c3_phase2_fault_rollback
    { books := [{ title := "Dune".data, author := "Frank Herbert".data, qty := 5 },
                { title := "Foundation".data, author := "Isaac Asimov".data, qty := 7 }],
      credits := [(1, 100)], faults := [false, true] } 1
    [{ title := "Dune".data, quantity := 2 },
     { title := "Foundation".data, quantity := 3 }]
    (by decide) (by decide) (by decide)
  exact ⟨h.1, h.2.1.trans (by decide), h.2.2.trans (by decide)⟩

/-! ## Claim C6: duplicate line items write from the same snapshot -/

def MultiBuyResult.total_credits_spent : MultiBuyResult → Option Int
  | .ok s => some s.total_credits_spent
  | .err _ => none

lemma setQty_setQty (bs : List Book) (t : List Char) (v w : Int) :
    setQty (setQty bs t v) t w = setQty bs t w := by
  induction bs with
  | nil => rfl
  | cons b rest ih =>
    unfold setQty at ih ⊢
    simp only [List.map_cons]
    by_cases hbt : b.title = t
    · simp [hbt, ih]
    · simp [hbt, ih]

/-- C6: two line items in one call that resolve to the same book record
pass Phase 1 whenever each quantity alone fits the (shared) snapshot
stock, even if their sum exceeds it; on commit both writes set the
stock from the same pre-call snapshot, so the final stock is the
snapshot minus only the second line's quantity, while the account is
debited for 20 times the sum of both quantities. -/
theorem c6_duplicate_line_items (st : Store) (uid : Nat) (t1 t2 : List Char)
    (q1 q2 : Int) (b : Book) (c : Int)
    (hb1 : get_book_by_title st t1 = some b)
    (hb2 : get_book_by_title st t2 = some b)
    (hpos1 : 0 < q1) (hpos2 : 0 < q2)
    (hq1 : q1 ≤ b.qty) (hq2 : q2 ≤ b.qty)
    (hc : get_user_credits st uid = some c)
    (hcost : 20 * (q1 + q2) ≤ c)
    (hf : st.faults = []) :
    (buy_multiple_books_transaction st uid
        [{ title := t1, quantity := q1 }, { title := t2, quantity := q2 }]).1.success
      = true ∧
    (buy_multiple_books_transaction st uid
        [{ title := t1, quantity := q1 }, { title := t2, quantity := q2 }]).1.total_credits_spent
      = some (20 * (q1 + q2)) ∧
    (buy_multiple_books_transaction st uid
        [{ title := t1, quantity := q1 }, { title := t2, quantity := q2 }]).2.books
      = setQty st.books b.title (b.qty - q2) ∧
    (buy_multiple_books_transaction st uid
        [{ title := t1, quantity := q1 }, { title := t2, quantity := q2 }]).2.credits
      = setCredits st.credits uid (c - 20 * (q1 + q2)) := by
  have h10 : ¬q1 ≤ 0 := not_le.mpr hpos1
  have h20 : ¬q2 ≤ 0 := not_le.mpr hpos2
  have hlt1 : ¬b.qty < q1 := not_lt.mpr hq1
  have hlt2 : ¬b.qty < q2 := not_lt.mpr hq2
  have htotal : q1 * 20 + (q2 * 20 + 0) = 20 * (q1 + q2) := by ring
  have htot : ¬c < q1 * 20 + (q2 * 20 + 0) := by
    rw [htotal]
    exact not_lt.mpr hcost
  have hval : validateBooks st [{ title := t1, quantity := q1 }, { title := t2, quantity := q2 }]
      = .ok ([{ book := b, requested_quantity := q1, cost := q1 * 20, actual_title := b.title },
              { book := b, requested_quantity := q2, cost := q2 * 20, actual_title := b.title }],
             q1 * 20 + (q2 * 20 + 0)) := by
    simp only [validateBooks, if_neg h10, hb1, if_neg hlt1, if_neg h20, hb2, if_neg hlt2]
  have hf1 : ({ st with books := setQty st.books b.title (b.qty - q1) } : Store).faults = [] := hf
  have hcommit : commitBooks
      [{ book := b, requested_quantity := q1, cost := q1 * 20, actual_title := b.title },
       { book := b, requested_quantity := q2, cost := q2 * 20, actual_title := b.title }] [] st
      = (.ok [{ title := b.title, quantity_purchased := q1, cost := q1 * 20,
                remaining_qty := b.qty - q1, original_qty := b.qty },
              { title := b.title, quantity_purchased := q2, cost := q2 * 20,
                remaining_qty := b.qty - q2, original_qty := b.qty }],
         { st with books := setQty st.books b.title (b.qty - q2) }) := by
    simp only [commitBooks, update_book_quantity_nofault st b.title (b.qty - q1) hf, if_true,
      update_book_quantity_nofault _ b.title (b.qty - q2) hf1]
    simp [setQty_setQty]
  have hf2 : ({ st with books := setQty st.books b.title (b.qty - q2) } : Store).faults = [] := hf
  simp only [buy_multiple_books_transaction, hval, hc, if_neg htot, hcommit,
    update_user_credits_nofault _ uid (c - (q1 * 20 + (q2 * 20 + 0))) hf2, if_true]
  have htotal2 : q1 * 20 + q2 * 20 = 20 * (q1 + q2) := by ring
  simp [MultiBuyResult.success, MultiBuyResult.total_credits_spent, htotal2]

/-- Witness for C6: lines (Dune, 3) and (Dune, 4) against stock 5 pass
validation (3 ≤ 5, 4 ≤ 5, though 3+4 > 5); the final stock is
5 − 4 = 1 and the account is debited 140. -/
theorem c6_witness :
    (buy_multiple_books_transaction
        { books := [{ title := "Dune".data, author := "Frank Herbert".data, qty := 5 }],
          credits := [(1, 200)], faults := [] } 1
        [{ title := "Dune".data, quantity := 3 },
         { title := "Dune".data, quantity := 4 }]).1.success = true ∧
    (buy_multiple_books_transaction
        { books := [{ title := "Dune".data, author := "Frank Herbert".data, qty := 5 }],
          credits := [(1, 200)], faults := [] } 1
        [{ title := "Dune".data, quantity := 3 },
         { title := "Dune".data, quantity := 4 }]).1.total_credits_spent = some 140 ∧
    (buy_multiple_books_transaction
        { books := [{ title := "Dune".data, author := "Frank Herbert".data, qty := 5 }],
          credits := [(1, 200)], faults := [] } 1
        [{ title := "Dune".data, quantity := 3 },
         { title := "Dune".data, quantity := 4 }]).2.books =
      [{ title := "Dune".data, author := "Frank Herbert".data, qty := 1 }] ∧
    (buy_multiple_books_transaction
        { books := [{ title := "Dune".data, author := "Frank Herbert".data, qty := 5 }],
          credits := [(1, 200)], faults := [] } 1
        [{ title := "Dune".data, quantity := 3 },
         { title := "Dune".data, quantity := 4 }]).2.credits = [(1, 60)] := by
  have h := c6_duplicate_line_items
    { books := [{ title := "Dune".data, author := "Frank Herbert".data, qty := 5 }],
      credits := [(1, 200)], faults := [] } 1 "Dune".data "Dune".data 3 4
    { title := "Dune".data, author := "Frank Herbert".data, qty := 5 } 200
    (by decide) (by decide) (by decide) (by decide) (by decide) (by decide)
    (by decide) (by decide) rfl
  exact ⟨h.1, h.2.1, h.2.2.1.trans (by decide), h.2.2.2.trans (by decide)⟩

/-! ## Session-map lemmas -/

lemma lookupSession_putSession_self :
    ∀ (l : SessionMap) (uid : Nat) (s : ChatSession),
      lookupSession (putSession l uid s) uid = some s
  | [], uid, s => by simp [putSession, lookupSession]
  | (k, s0) :: rest, uid, s => by
    by_cases hk : k = uid
    · simp [putSession, lookupSession, hk]
    · simp [putSession, lookupSession, hk, lookupSession_putSession_self rest uid s]

lemma lookupSession_putSession_other :
    ∀ (l : SessionMap) (uid v : Nat) (s : ChatSession), v ≠ uid →
      lookupSession (putSession l uid s) v = lookupSession l v
  | [], uid, v, s, hne => by
    have huv : ¬uid = v := fun hc => hne hc.symm
    simp [putSession, lookupSession, huv]
  | (k, s0) :: rest, uid, v, s, hne => by
    by_cases hk : k = uid
    · have huv : ¬uid = v := fun hc => hne hc.symm
      simp [putSession, lookupSession, hk, huv]
    · by_cases hkv : k = v
      · subst hkv
        simp [putSession, lookupSession, hk]
      · simp [putSession, lookupSession, hk, hkv,
          lookupSession_putSession_other rest uid v s hne]

lemma lookupSession_none_of_not_mem (v : Nat) :
    ∀ l : SessionMap, v ∉ l.map Prod.fst → lookupSession l v = none
  | [], _ => rfl
  | (k, s0) :: rest, h => by
    have hk : ¬k = v := fun hc => h (by simp [hc])
    simp [lookupSession, hk,
      lookupSession_none_of_not_mem v rest (fun hc => h (by simp [hc]))]

lemma lookupSession_filter_none (pr : Nat × ChatSession → Bool) (v : Nat) :
    ∀ l : SessionMap, lookupSession l v = none →
      lookupSession (l.filter pr) v = none
  | [], _ => rfl
  | (k, s0) :: rest, h => by
    by_cases hk : k = v
    · simp [lookupSession, hk] at h
    · rw [lookupSession, if_neg hk] at h
      have ih := lookupSession_filter_none pr v rest h
      by_cases hpr : pr (k, s0)
      · simp [List.filter_cons, hpr, lookupSession, hk, ih]
      · simp [List.filter_cons, hpr, ih]

lemma lookupSession_filter (pr : Nat × ChatSession → Bool) :
    ∀ l : SessionMap, (l.map Prod.fst).Nodup →
      ∀ (v : Nat) (s : ChatSession), lookupSession l v = some s →
      lookupSession (l.filter pr) v = (if pr (v, s) = true then some s else none)
  | [], _, v, s, h => by simp [lookupSession] at h
  | (k, s0) :: rest, hnd, v, s, h => by
    by_cases hk : k = v
    · subst hk
      have hs : s0 = s := by simpa [lookupSession] using h
      subst hs
      have hrest : k ∉ rest.map Prod.fst := by
        simp only [List.map_cons, List.nodup_cons] at hnd
        exact hnd.1
      by_cases hpr : pr (k, s0)
      · simp [List.filter_cons, hpr, lookupSession]
      · rw [if_neg hpr]
        simp only [List.filter_cons, hpr, Bool.false_eq_true, if_false]
        exact lookupSession_filter_none pr k rest (lookupSession_none_of_not_mem k rest hrest)
    · rw [lookupSession, if_neg hk] at h
      have hnd' : (rest.map Prod.fst).Nodup := by
        simp only [List.map_cons, List.nodup_cons] at hnd
        exact hnd.2
      have ih := lookupSession_filter pr rest hnd' v s h
      by_cases hpr : pr (k, s0)
      · simp [List.filter_cons, hpr, lookupSession, hk, ih]
      · simp [List.filter_cons, hpr, ih]

lemma mem_keys_putSession :
    ∀ (l : SessionMap) (uid : Nat) (s : ChatSession) (x : Nat),
      x ∈ (putSession l uid s).map Prod.fst → x ∈ l.map Prod.fst ∨ x = uid
  | [], uid, s, x, h => by
    simp [putSession] at h
    exact Or.inr h
  | (k, s0) :: rest, uid, s, x, h => by
    by_cases hk : k = uid
    · rw [putSession, if_pos hk] at h
      simp only [List.map_cons] at h ⊢
      rcases List.mem_cons.mp h with h | h
      · exact Or.inl (by simp [h])
      · exact Or.inl (List.mem_cons_of_mem _ h)
    · rw [putSession, if_neg hk] at h
      simp only [List.map_cons] at h ⊢
      rcases List.mem_cons.mp h with h | h
      · exact Or.inl (by simp [h])
      · rcases mem_keys_putSession rest uid s x h with h | h
        · exact Or.inl (List.mem_cons_of_mem _ h)
        · exact Or.inr h

/-- `putSession` keeps the key list duplicate-free. -/
lemma putSession_nodup :
    ∀ (l : SessionMap) (uid : Nat) (s : ChatSession),
      (l.map Prod.fst).Nodup → ((putSession l uid s).map Prod.fst).Nodup
  | [], uid, s, _ => by simp [putSession]
  | (k, s0) :: rest, uid, s, hnd => by
    simp only [List.map_cons, List.nodup_cons] at hnd
    by_cases hk : k = uid
    · rw [putSession, if_pos hk]
      simp only [List.map_cons, List.nodup_cons]
      exact hnd
    · rw [putSession, if_neg hk]
      simp only [List.map_cons, List.nodup_cons]
      refine ⟨?_, putSession_nodup rest uid s hnd.2⟩
      intro hc
      rcases mem_keys_putSession rest uid s k hc with hc | hc
      · exact hnd.1 hc
      · exact hk hc

/-- C2 (amended): eviction at lookup never applies to the user being
looked up.  `get_session` first refreshes the requested user's entry
(username and `last_activity := now`) and only then evicts expired
sessions, so: (1) an existing session — however long idle — is returned
and retained with its dialogue state and turn log intact; (2) only a
user id with no stored entry gets a fresh `INITIAL` session; (3) the
expired sessions of *other* user ids are evicted by the lookup. -/
theorem c2_amended_session_expiry (sessions : SessionMap) (now uid : Nat)
    (uname : List Char) (hnd : (sessions.map Prod.fst).Nodup) :
    (∀ s0, lookupSession sessions uid = some s0 →
      (get_session sessions now uid uname).1 =
        { s0 with username := uname, last_activity := now } ∧
      lookupSession (get_session sessions now uid uname).2 uid =
        some { s0 with username := uname, last_activity := now }) ∧
    (lookupSession sessions uid = none →
      (get_session sessions now uid uname).1 = ChatSession.mkNew uid uname now ∧
      lookupSession (get_session sessions now uid uname).2 uid =
        some (ChatSession.mkNew uid uname now)) ∧
    (∀ v s_v, v ≠ uid → lookupSession sessions v = some s_v →
      s_v.is_expired now = true →
      lookupSession (get_session sessions now uid uname).2 v = none) := by
  have hfresh : ∀ s : ChatSession, ({ s with username := uname, last_activity := now }
      : ChatSession).is_expired now = false := by
    intro s
    simp [ChatSession.is_expired]
  refine ⟨?_, ?_, ?_⟩
  · intro s0 h0
    constructor
    · simp [get_session, h0]
    · have hput := lookupSession_putSession_self sessions uid
        { s0 with username := uname, last_activity := now }
      have hnd' := putSession_nodup sessions uid
        { s0 with username := uname, last_activity := now } hnd
      have := lookupSession_filter (fun p => ¬p.2.is_expired now) _ hnd' uid
        { s0 with username := uname, last_activity := now } hput
      simp only [get_session, h0]
      rw [this]
      simp [hfresh s0]
  · intro h0
    constructor
    · simp [get_session, h0]
    · have hput := lookupSession_putSession_self sessions uid (ChatSession.mkNew uid uname now)
      have hnd' := putSession_nodup sessions uid (ChatSession.mkNew uid uname now) hnd
      have := lookupSession_filter (fun p => ¬p.2.is_expired now) _ hnd' uid
        (ChatSession.mkNew uid uname now) hput
      simp only [get_session, h0]
      rw [this]
      simp [ChatSession.is_expired, ChatSession.mkNew]
  · intro v s_v hne hv hexp
    simp only [get_session]
    cases h0 : lookupSession sessions uid with
    | none =>
      have hput := lookupSession_putSession_other sessions uid v
        (ChatSession.mkNew uid uname now) hne
      have hnd' := putSession_nodup sessions uid (ChatSession.mkNew uid uname now) hnd
      have := lookupSession_filter (fun p => ¬p.2.is_expired now) _ hnd' v s_v
        (hput.trans hv)
      rw [this]
      simp [hexp]
    | some s0 =>
      have hput := lookupSession_putSession_other sessions uid v
        { s0 with username := uname, last_activity := now } hne
      have hnd' := putSession_nodup sessions uid
        { s0 with username := uname, last_activity := now } hnd
      have := lookupSession_filter (fun p => ¬p.2.is_expired now) _ hnd' v s_v
        (hput.trans hv)
      rw [this]
      simp [hexp]

/-- Witness for C2 (amended): user 1's session is 2000 s idle; a lookup
by user 2 evicts it, while a lookup by user 1 revives it. -/
theorem c2_amended_witness :
    lookupSession
      (get_session
        [(1, { user_id := 1, username := "alice".data, state := .waiting_for_buy_details,
               conversation_history := [⟨.user, "buy".data, 0⟩], last_activity := 0 })]
        2000 2 "bob".data).2 1 = none :=
  (c2_amended_session_expiry
    [(1, { user_id := 1, username := "alice".data, state := .waiting_for_buy_details,
           conversation_history := [⟨.user, "buy".data, 0⟩], last_activity := 0 })]
    2000 2 "bob".data (by decide)).2.2 1
    { user_id := 1, username := "alice".data, state := .waiting_for_buy_details,
      conversation_history := [⟨.user, "buy".data, 0⟩], last_activity := 0 }
    (by decide) (by decide) (by decide)

/-! ## Claim C9: handlers never touch the turn log themselves -/

lemma handle_search_input_history (oracle : SearchOracle) (now : Nat) (s : ChatSession)
    (m : List Char) (st : Store) :
    (handle_search_input oracle now s m st).2.1.conversation_history
      = s.conversation_history := by
  by_cases h : (pyStripWs m).isEmpty
  · simp [handle_search_input, h]
  · simp [handle_search_input, h, ChatSession.set_state]

lemma handle_buy_input_history (now : Nat) (s : ChatSession) (m : List Char) (st : Store) :
    (handle_buy_input now s m st).2.1.conversation_history = s.conversation_history := by
  unfold handle_buy_input
  rcases hp : parse_buy_request m with ⟨bt, q⟩
  simp only [hp]
  split
  · rfl
  · simp [ChatSession.set_state]

lemma handle_credits_input_history (now : Nat) (s : ChatSession) (m : List Char)
    (st : Store) :
    (handle_credits_input now s m st).2.1.conversation_history
      = s.conversation_history := by
  unfold handle_credits_input
  cases hd : firstDigitRun m with
  | none => rfl
  | some n =>
    by_cases h : n = 0
    · simp [h, ChatSession.set_state]
    · simp [h, ChatSession.set_state]

lemma handle_invalid_command_history (s : ChatSession) (st : Store) :
    (handle_invalid_command s st).2.1.conversation_history = s.conversation_history := rfl

lemma handle_invalid_state_history (now : Nat) (s : ChatSession) (st : Store) :
    (handle_invalid_state now s st).2.1.conversation_history = s.conversation_history := rfl

lemma try_natural_language_history (oracle : SearchOracle) (now : Nat) (s : ChatSession)
    (m : List Char) (st : Store) :
    (try_natural_language oracle now s m st).2.1.conversation_history
      = s.conversation_history := by
  unfold try_natural_language
  by_cases h1 : ¬(containsSub "buy".data (lowerStr m) || containsSub "purchase".data (lowerStr m)
      || containsSub "credit".data (lowerStr m)) = true
  · rw [if_pos h1, handle_search_input_history]
    rfl
  · rw [if_neg h1]
    by_cases h2 : ((containsSub "buy".data (lowerStr m) || containsSub "purchase".data (lowerStr m))
        && (containsSub "copy".data (lowerStr m) || containsSub "copies".data (lowerStr m)
            || containsSub "book".data (lowerStr m))) = true
    · rw [if_pos h2, handle_buy_input_history]
      rfl
    · rw [if_neg h2]
      by_cases h3 : ((containsSub "credit".data (lowerStr m) || containsSub "credits".data (lowerStr m))
          && (firstDigitRun m).isSome) = true
      · rw [if_pos h3, handle_credits_input_history]
        rfl
      · rw [if_neg h3]
        rfl

lemma handle_initial_state_history (oracle : SearchOracle) (now : Nat) (s : ChatSession)
    (m : List Char) (st : Store) :
    (handle_initial_state oracle now s m st).2.1.conversation_history
      = s.conversation_history := by
  unfold handle_initial_state
  by_cases h1 : pyStripWs (lowerStr m) = "query".data
  · simp [h1, ChatSession.set_state]
  · rw [if_neg h1]
    by_cases h2 : pyStripWs (lowerStr m) = "buy".data
    · simp [h2, ChatSession.set_state]
    · rw [if_neg h2]
      by_cases h3 : pyStripWs (lowerStr m) = "buy credits".data
      · simp [h3, ChatSession.set_state]
      · rw [if_neg h3]
        exact try_natural_language_history oracle now s m st

/-- C9 (amended): every processed turn appends exactly one user entry
to the retrieved session's turn log, and exactly one assistant entry is
appended iff the handler reported success together with a non-empty
response text (a produced failure response is returned to the caller
but not logged); both entries are timestamped with the processing
clock. -/
theorem c9_amended_turn_log (oracle : SearchOracle) (now : Nat) (ws : WorkflowState)
    (uid : Nat) (uname msg : List Char) :
    ∃ s, lookupSession (process_message oracle now ws uid uname msg).2.sessions uid
        = some s ∧
      s.conversation_history =
        (get_session ws.sessions now uid uname).1.conversation_history
          ++ [⟨.user, msg, now⟩]
          ++ (if (process_message oracle now ws uid uname msg).1.success = true ∧
                 (process_message oracle now ws uid uname msg).1.response.isEmpty = false
              then [⟨.assistant, (process_message oracle now ws uid uname msg).1.response, now⟩]
              else []) := by
  unfold process_message
  rcases hget : get_session ws.sessions now uid uname with ⟨session0, sessions1⟩
  simp only
  cases hstate : (session0.add_message .user msg now).state with
  | initial =>
    rcases hres : handle_initial_state oracle now (session0.add_message .user msg now) msg ws.store
      with ⟨resp, session2, store1⟩
    have hhist : session2.conversation_history
        = (session0.add_message .user msg now).conversation_history := by
      have := handle_initial_state_history oracle now (session0.add_message .user msg now) msg ws.store
      rw [hres] at this
      exact this
    simp only [hstate, hres]
    by_cases hc : resp.success = true ∧ ¬resp.response.isEmpty = true
    · rw [if_pos hc]
      refine ⟨_, lookupSession_putSession_self sessions1 uid _, ?_⟩
      rw [if_pos (by simpa [Bool.not_eq_true] using hc)]
      simp [ChatSession.add_message, hhist]
    · rw [if_neg hc]
      refine ⟨_, lookupSession_putSession_self sessions1 uid _, ?_⟩
      rw [if_neg (by simpa [Bool.not_eq_true] using hc)]
      simp [ChatSession.add_message, hhist]
  | waiting_for_search =>
    rcases hres : handle_search_input oracle now (session0.add_message .user msg now) msg ws.store
      with ⟨resp, session2, store1⟩
    have hhist : session2.conversation_history
        = (session0.add_message .user msg now).conversation_history := by
      have := handle_search_input_history oracle now (session0.add_message .user msg now) msg ws.store
      rw [hres] at this
      exact this
    simp only [hstate, hres]
    by_cases hc : resp.success = true ∧ ¬resp.response.isEmpty = true
    · rw [if_pos hc]
      refine ⟨_, lookupSession_putSession_self sessions1 uid _, ?_⟩
      rw [if_pos (by simpa [Bool.not_eq_true] using hc)]
      simp [ChatSession.add_message, hhist]
    · rw [if_neg hc]
      refine ⟨_, lookupSession_putSession_self sessions1 uid _, ?_⟩
      rw [if_neg (by simpa [Bool.not_eq_true] using hc)]
      simp [ChatSession.add_message, hhist]
  | waiting_for_buy_details =>
    rcases hres : handle_buy_input now (session0.add_message .user msg now) msg ws.store
      with ⟨resp, session2, store1⟩
    have hhist : session2.conversation_history
        = (session0.add_message .user msg now).conversation_history := by
      have := handle_buy_input_history now (session0.add_message .user msg now) msg ws.store
      rw [hres] at this
      exact this
    simp only [hstate, hres]
    by_cases hc : resp.success = true ∧ ¬resp.response.isEmpty = true
    · rw [if_pos hc]
      refine ⟨_, lookupSession_putSession_self sessions1 uid _, ?_⟩
      rw [if_pos (by simpa [Bool.not_eq_true] using hc)]
      simp [ChatSession.add_message, hhist]
    · rw [if_neg hc]
      refine ⟨_, lookupSession_putSession_self sessions1 uid _, ?_⟩
      rw [if_neg (by simpa [Bool.not_eq_true] using hc)]
      simp [ChatSession.add_message, hhist]
  | waiting_for_credits =>
    rcases hres : handle_credits_input now (session0.add_message .user msg now) msg ws.store
      with ⟨resp, session2, store1⟩
    have hhist : session2.conversation_history
        = (session0.add_message .user msg now).conversation_history := by
      have := handle_credits_input_history now (session0.add_message .user msg now) msg ws.store
      rw [hres] at this
      exact this
    simp only [hstate, hres]
    by_cases hc : resp.success = true ∧ ¬resp.response.isEmpty = true
    · rw [if_pos hc]
      refine ⟨_, lookupSession_putSession_self sessions1 uid _, ?_⟩
      rw [if_pos (by simpa [Bool.not_eq_true] using hc)]
      simp [ChatSession.add_message, hhist]
    · rw [if_neg hc]
      refine ⟨_, lookupSession_putSession_self sessions1 uid _, ?_⟩
      rw [if_neg (by simpa [Bool.not_eq_true] using hc)]
      simp [ChatSession.add_message, hhist]
  | waiting_for_return_details =>
    rcases hres : handle_invalid_state now (session0.add_message .user msg now) ws.store
      with ⟨resp, session2, store1⟩
    have hhist : session2.conversation_history
        = (session0.add_message .user msg now).conversation_history := by
      have := handle_invalid_state_history now (session0.add_message .user msg now) ws.store
      rw [hres] at this
      exact this
    simp only [hstate, hres]
    by_cases hc : resp.success = true ∧ ¬resp.response.isEmpty = true
    · rw [if_pos hc]
      refine ⟨_, lookupSession_putSession_self sessions1 uid _, ?_⟩
      rw [if_pos (by simpa [Bool.not_eq_true] using hc)]
      simp [ChatSession.add_message, hhist]
    · rw [if_neg hc]
      refine ⟨_, lookupSession_putSession_self sessions1 uid _, ?_⟩
      rw [if_neg (by simpa [Bool.not_eq_true] using hc)]
      simp [ChatSession.add_message, hhist]

/-! ## Claim C10: quantities reaching the engine are always positive -/

lemma commaLoop_quantity_ge_one :
    ∀ (parts : List (List Char)) (item : List Char × Nat),
      item ∈ (commaLoop parts).1 → 1 ≤ item.2
  | [], item, h => by simp [commaLoop] at h
  | p :: restParts, item, h => by
    rw [commaLoop] at h
    rcases hrec : commaLoop restParts with ⟨l, flag⟩
    cases hn : numberMatch (pyStripWs p) with
    | some tq =>
      obtain ⟨t, q⟩ := tq
      simp only [hn, hrec] at h
      rcases List.mem_append.mp h with h | h
      · by_cases hg : ¬(pyStripWs t).isEmpty ∧ 0 < q
        · rw [if_pos hg] at h
          simp only [List.mem_singleton] at h
          subst h
          exact hg.2
        · rw [if_neg hg] at h
          exact absurd h (List.not_mem_nil item)
      · exact commaLoop_quantity_ge_one restParts item (by rw [hrec]; exact h)
    | none =>
      simp only [hn] at h
      by_cases hu : hasQtyUnitPhrase (pyStripWs p)
      · rw [if_pos hu] at h
        exact absurd h (List.not_mem_nil item)
      · rw [if_neg hu] at h
        by_cases he : (pyStripWs p).isEmpty
        · rw [if_pos he] at h
          exact commaLoop_quantity_ge_one restParts item h
        · rw [if_neg he] at h
          simp only [hrec] at h
          rcases List.mem_cons.mp h with h | h
          · rw [h]
          · exact commaLoop_quantity_ge_one restParts item (by rw [hrec]; exact h)

lemma colonRequests_quantity_ge_one (user_input : List Char) (item : List Char × Nat)
    (h : item ∈ colonRequests user_input) : 1 ≤ item.2 := by
  unfold colonRequests at h
  rcases List.mem_filterMap.mp h with ⟨tq, _, htq⟩
  by_cases hg : ¬(pyStripWs tq.1).isEmpty ∧ 0 < tq.2
  · rw [if_pos hg] at htq
    cases htq
    exact hg.2
  · rw [if_neg hg] at htq
    exact Option.noConfusion htq

lemma structuredRequests_quantity_ge_one (user_input : List Char)
    (parts : List (List Char)) (reqs : List (List Char × Nat))
    (h : structuredRequests user_input parts = some reqs) :
    ∀ item ∈ reqs, 1 ≤ item.2 := by
  intro item hitem
  unfold structuredRequests at h
  by_cases h1 : parts.length = 1
  · rw [if_pos h1] at h
    by_cases h2 : ¬(colonMatches user_input).isEmpty ∧ ¬(colonRequests user_input).isEmpty
    · rw [if_pos h2] at h
      cases h
      exact colonRequests_quantity_ge_one user_input item hitem
    · rw [if_neg h2] at h
      by_cases h3 : (splitOnChar ',' user_input).length > 1
      · rw [if_pos h3] at h
        rcases hcl : commaLoop (splitOnChar ',' user_input) with ⟨l, flag⟩
        simp only [hcl] at h
        by_cases h4 : l.length > 1 ∧ flag = true
        · rw [if_pos h4] at h
          cases h
          exact commaLoop_quantity_ge_one _ item (by rw [hcl]; exact hitem)
        · rw [if_neg h4] at h
          exact Option.noConfusion h
      · rw [if_neg h3] at h
        exact Option.noConfusion h
  · rw [if_neg h1] at h
    exact Option.noConfusion h

lemma parse_multiple_quantity_ge_one (input : List Char) :
    ∀ item ∈ parse_multiple_buy_request input, 1 ≤ item.2 := by
  intro item h
  simp only [parse_multiple_buy_request] at h
  cases hs : structuredRequests input
      (if containsSub ";".data input then splitOnChar ';' input
       else if containsSub " and ".data input then splitOnSub " and ".data input
       else if containsSub " & ".data input then splitOnSub " & ".data input
       else [input]) with
  | some reqs =>
    rw [hs] at h
    exact structuredRequests_quantity_ge_one input _ reqs hs item h
  | none =>
    rw [hs] at h
    rcases List.mem_filterMap.mp h with ⟨p, _, hp⟩
    by_cases he : (pyStripWs p).isEmpty
    · rw [if_pos he] at hp
      exact Option.noConfusion hp
    · rw [if_neg he] at hp
      rcases hsingle : parse_single_buy_request (pyStripWs p) with ⟨t, q⟩
      simp only [hsingle] at hp
      by_cases hg : ¬t.isEmpty ∧ 0 < q
      · rw [if_pos hg] at hp
        cases hp
        exact hg.2
      · rw [if_neg hg] at hp
        exact Option.noConfusion hp

/-- The non-positive-quantity rejection of
`buy_multiple_books_transaction` is unreachable on line items whose
quantities are all positive. -/
lemma validateBooks_no_invalidQuantity (st : Store) :
    ∀ (reqs : List BookRequest), (∀ r ∈ reqs, 0 < r.quantity) →
      ∀ (t : List Char) (q : Int),
        validateBooks st reqs ≠ .error (.invalidQuantity t q)
  | [], _, t, q => by simp [validateBooks]
  | r :: rest, hpos, t, q => by
    rw [validateBooks]
    have h0 : ¬r.quantity ≤ 0 := not_le.mpr (hpos r (List.mem_cons_self _ _))
    rw [if_neg h0]
    cases hbk : get_book_by_title st r.title with
    | none => simp [hbk]
    | some book =>
      simp only [hbk]
      by_cases h1 : book.qty < r.quantity
      · simp [h1]
      · rw [if_neg h1]
        cases hrec : validateBooks st rest with
        | error e =>
          have hne := validateBooks_no_invalidQuantity st rest
            (fun r' h' => hpos r' (List.mem_cons_of_mem _ h')) t q
          rw [hrec] at hne
          simpa [hrec] using hne
        | ok p => simp [hrec]

/-- C10 (amended): the single-item parser replaces a matched zero
quantity by the default 1 when the stripped remainder does not itself
end in a bare integer (in particular `"Dune, 0 copies"` parses as
`("Dune", 1)`), but it is not bounded below by 1 on every input (see
the counterexample).  However, every line item emitted by the
multi-item parser has quantity ≥ 1, so the transaction engine's
non-positive-quantity rejection branch is unreachable for
parser-produced line items. -/
theorem c10_amended_parser_quantities :
    parse_single_buy_request "Dune, 0 copies".data = ("Dune".data, 1) ∧
    (∀ (input : List Char), ∀ item ∈ parse_multiple_buy_request input, 1 ≤ item.2) ∧
    (∀ (st : Store) (input : List Char) (t : List Char) (q : Int),
      validateBooks st ((parse_multiple_buy_request input).map
          (fun p => { title := p.1, quantity := (p.2 : Int) }))
        ≠ .error (.invalidQuantity t q)) := by
  refine ⟨by decide, parse_multiple_quantity_ge_one, ?_⟩
  intro st input t q
  refine validateBooks_no_invalidQuantity st _ ?_ t q
  intro r hr
  rcases List.mem_map.mp hr with ⟨p, hp, hpr⟩
  have := parse_multiple_quantity_ge_one input p hp
  rw [← hpr]
  simp only
  exact_mod_cast Nat.lt_of_lt_of_le Nat.zero_lt_one this

/-- Witness for C10 (amended) at the item `("Dune", 2)` of the parse of
`"Dune: 2, Foundation: 1"`. -/
theorem c10_amended_witness :
    1 ≤ (("Dune".data, 2) : List Char × Nat).2 :=
  c10_amended_parser_quantities.2.1 "Dune: 2, Foundation: 1".data
    ("Dune".data, 2) (by decide)

end LibBot
